import Mathlib

/-!
# mfx-migrator: the migration orchestrator

A shallow embedding of `cmd/migrate.go`, `internal/store/types.go`,
`internal/chain/migrate.go` and `internal/many/tx.go`.

* Pointers to values (`*string`, `*time.Time`) are `Option`s.
* A Go `error` result is an `Option GoError` (`none` is `nil`); a `(value, error)`
  result is an `Except`.
* Calls that leave the process (registry, local files, ledger node, keyring) are
  answered by an environment of oracles, and the calls made by `cmd/migrate.go`
  are recorded, in order, in a list of `Effect`s.
-/

namespace MfxMigrator

/-! ## internal/store/types.go -/

/-- The Go type `uuid.UUID`: an array of sixteen bytes, compared with `==`. -/
def UUID : Type := { bs : List (Fin 256) // bs.length = 16 }

instance : DecidableEq UUID := by unfold UUID; infer_instance

/-- The Go type `time.Time`, as the instant it denotes: nanoseconds since the Unix epoch. -/
structure Time where
  unixNano : Int
  deriving DecidableEq, Repr

/-- The Go type `WorkItemStatus`, declared `type WorkItemStatus int`. -/
abbrev WorkItemStatus : Type := Int

/-- `CREATED WorkItemStatus = iota + 1`. -/
def CREATED : WorkItemStatus := 1
/-- Second constant of the block. -/
def CLAIMED : WorkItemStatus := 2
/-- Third constant of the block. -/
def MIGRATING : WorkItemStatus := 3
/-- Fourth constant of the block. -/
def COMPLETED : WorkItemStatus := 4
/-- Fifth constant of the block. -/
def FAILED : WorkItemStatus := 5

/-- The Go struct `store.WorkItem`. -/
structure WorkItem where
  Status : WorkItemStatus
  CreatedDate : Option Time
  UUID : UUID
  ManyHash : String
  ManifestAddress : String
  ManifestHash : Option String
  ManifestDatetime : Option Time
  Error : Option String
  deriving DecidableEq

/-- Modelled from the spec: `utils.EqualTimePtr` is not among the sources. The spec's
optional-aware equality: both absent counts as equal, one absent and one present is a
mismatch, both present are compared by value. -/
def EqualTimePtr : Option Time → Option Time → Bool
  | none, none => true
  | some a, some b => decide (a = b)
  | _, _ => false

/-- Modelled from the spec: `utils.EqualStringPtr` is not among the sources. The spec's
optional-aware equality: both absent counts as equal, one absent and one present is a
mismatch, both present are compared by value. -/
def EqualStringPtr : Option String → Option String → Bool
  | none, none => true
  | some a, some b => decide (a = b)
  | _, _ => false

/-- The method `WorkItem.Equal`. -/
def WorkItem.Equal (wi other : WorkItem) : Bool :=
  decide (wi.Status = other.Status) &&
    EqualTimePtr wi.CreatedDate other.CreatedDate &&
    decide (wi.UUID = other.UUID) &&
    decide (wi.ManyHash = other.ManyHash) &&
    decide (wi.ManifestAddress = other.ManifestAddress) &&
    EqualStringPtr wi.ManifestHash other.ManifestHash &&
    EqualTimePtr wi.ManifestDatetime other.ManifestDatetime &&
    EqualStringPtr wi.Error other.Error

/-! ## Errors -/

/-- A Go `error` value. The errors built in `cmd/migrate.go` with `fmt.Errorf` keep the
arguments of their format; an error handed over by a collaborator, or built in
`internal/chain`, is known by its text (`err.Error()`). -/
inductive GoError where
  /-- `fmt.Errorf("work item status not valid for migration: %s, %s", item.UUID, item.Status)` -/
  | statusNotValid (uuid : UUID) (status : WorkItemStatus)
  /-- `fmt.Errorf("local and remote work items do not match: %s, %s", item.UUID, remoteItem.UUID)` -/
  | itemsDoNotMatch (localUUID remoteUUID : UUID)
  /-- `fmt.Errorf("migration failed: %s", txResponse.RawLog)` -/
  | migrationFailed (rawLog : String)
  /-- An error whose `Error()` is the given text. -/
  | text (msg : String)
  deriving DecidableEq

/-! ## cmd/migrate.go: the verification steps -/

/-- `verifyItemStatus`: the status of the work item is valid for migration. -/
def verifyItemStatus (item : WorkItem) : Option GoError :=
  if !(item.Status == CLAIMED || item.Status == MIGRATING) then
    some (GoError.statusNotValid item.UUID item.Status)
  else
    none

/-- `compareItems`: the local and remote work items match. -/
def compareItems (item remoteItem : WorkItem) : Option GoError :=
  if !(item.Equal remoteItem) then
    some (GoError.itemsDoNotMatch item.UUID remoteItem.UUID)
  else
    none

/-! ## internal/chain/migrate.go

The Cosmos SDK, the keyring and the node's RPC endpoint are collaborators. What they
answer is given by a `ChainEnv`; texts of errors are `String`s, and `fmt.Errorf` with
`%w` puts its text in front of the text of the error it wraps. -/

/-- The Go struct `chain.MigrationConfig`. -/
structure MigrationConfig where
  ChainID : String
  NodeAddress : String
  KeyringBackend : String
  ChainHome : String
  AddressPrefix : String
  BankAddress : String
  Amount : Int
  Denom : String
  deriving DecidableEq

/-- `const defaultGasLimit uint64 = 200000`. -/
def defaultGasLimit : Nat := 200000

/-- `sdk.AccAddress`, a byte slice. -/
abbrev AccAddress : Type := List (Fin 256)

/-- `keyring.Record`, known by its name. -/
structure KeyRecord where
  Name : String
  deriving DecidableEq

/-- `sdk.Coin`. -/
structure Coin where
  Denom : String
  Amount : Int
  deriving DecidableEq

/-- `banktypes.MsgSend`. -/
structure MsgSend where
  FromAddress : AccAddress
  ToAddress : AccAddress
  Amount : List Coin
  deriving DecidableEq

/-- What a `client.TxBuilder` holds after the setters called in `prepareTx`. -/
structure TxBuilder where
  Msgs : List MsgSend
  Memo : String
  FeeAmount : List Coin
  GasLimit : Nat
  deriving DecidableEq

/-- `tx.Factory`, the fields set in `signAndBroadcast` (the gas adjustment and the sign
mode, two constants, are left out). -/
structure Factory where
  ChainID : String
  Gas : Nat
  AccountNumber : Nat
  Sequence : Nat
  deriving DecidableEq

/-- `client.Context`: the chain identifier; its keyring, codec and RPC client are the
oracles of `ChainEnv`. -/
structure Context where
  ChainID : String
  deriving DecidableEq

/-- `sdk.TxResponse`, the fields read in this repository. -/
structure TxResponse where
  Code : Nat
  TxHash : String
  RawLog : String
  deriving DecidableEq

/-- `coretypes.ResultTx`, the field read in this repository. -/
structure ResultTx where
  Height : Int
  deriving DecidableEq

/-- The answers of the collaborators of `internal/chain`. A call that can be made
several times in one run (`Tx`, `Status`, the `select` of `waitForBlockHeight`) is
answered by the number of calls of its kind made before it. -/
structure ChainEnv where
  /-- `keyring.New(sdk.KeyringServiceName(), keyringBackend, chainHomeDir, inBuf, cdc)`: its error, if any. -/
  keyringNew : String → String → Option String
  /-- `http.New(nodeAddress, "/websocket")`: its error, if any. -/
  httpNew : String → Option String
  /-- `ctx.Keyring.Key(bankAccount)`. -/
  Key : String → Except String KeyRecord
  /-- `info.GetAddress()`. -/
  GetAddress : KeyRecord → Except String AccAddress
  /-- `ctx.AccountRetriever.EnsureExists(ctx, addr)`: its error, if any. -/
  EnsureExists : AccAddress → Option String
  /-- `sdk.AccAddressFromBech32(address)`. -/
  AccAddressFromBech32 : String → Except String AccAddress
  /-- `txBuilder.SetMsgs(msg)`: its error, if any. -/
  SetMsgs : MsgSend → Option String
  /-- `ctx.AccountRetriever.GetAccountNumberSequence(ctx, addr)`. -/
  GetAccountNumberSequence : AccAddress → Except String (Nat × Nat)
  /-- `tx.Sign(txFactory, bankAccount, txBuilder, true)`: its error, if any. -/
  Sign : Factory → String → TxBuilder → Option String
  /-- `ctx.TxConfig.TxEncoder()(txBuilder.GetTx())`. -/
  TxEncoder : TxBuilder → Except String (List (Fin 256))
  /-- `ctx.BroadcastTx(txBytes)`. -/
  BroadcastTx : List (Fin 256) → Except String TxResponse
  /-- `hex.DecodeString(hash)`. -/
  DecodeString : String → Except String (List (Fin 256))
  /-- `rClient.Tx(context.Background(), bHash, false)`, by the number of earlier lookups. -/
  Tx : Nat → List (Fin 256) → Except String ResultTx
  /-- `client.Status(context.Background())`, read at `SyncInfo.LatestBlockHeight`, by the
  number of earlier status calls. -/
  Status : Nat → Except String Int
  /-- Which case the `select` of `waitForBlockHeight` takes, by the number of earlier
  selects: `true` is `<-ticker.C`, `false` is `<-time.After(30 * time.Second)`. -/
  selectTicker : Nat → Bool
  /-- `ctx.Client.Block(context.Background(), &height)`, read at `Block.Time`. -/
  Block : Int → Except String Time

/-- How many lookups, status calls and selects a run has made. -/
structure RpcCalls where
  tx : Nat
  status : Nat
  selects : Nat
  deriving DecidableEq

/-- `strings.Contains` on the characters of the two strings. -/
def containsChars : List Char → List Char → Bool
  | [], sub => sub.isPrefixOf []
  | c :: cs, sub => sub.isPrefixOf (c :: cs) || containsChars cs sub

/-- `strings.Contains(s, substr)`. -/
def stringsContains (s substr : String) : Bool :=
  containsChars s.toList substr.toList

/-- The offset, in nanoseconds, of the Unix epoch from the zero `time.Time`. -/
def unixToInternalNanos : Int := 62135596800 * 1000000000

/-- `time.Millisecond`, a `time.Duration` in nanoseconds. -/
def Millisecond : Int := 1000000

/-- `Time.Truncate(d)`: rounds down to a multiple of `d` since the zero time; unchanged
when `d <= 0`. -/
def Time.Truncate (t : Time) (d : Int) : Time :=
  if d ≤ 0 then t
  else { unixNano := t.unixNano - (t.unixNano + unixToInternalNanos) % d }

/-- `Time.UTC()`: the same instant, with the location set to UTC. -/
def Time.UTC (t : Time) : Time := t

/-- One hexadecimal digit, lower case. -/
def hexDigit (n : Nat) : Char :=
  "0123456789abcdef".toList.getD n '0'

/-- Two hexadecimal digits of a byte. -/
def hexByte (b : Fin 256) : List Char :=
  [hexDigit (b.val / 16), hexDigit (b.val % 16)]

/-- `UUID.String()`: the form xxxxxxxx-xxxx-xxxx-xxxx-xxxxxxxxxxxx. -/
def UUID.String (u : UUID) : String :=
  let hex : List (Fin 256) → List Char := fun bs => (bs.map hexByte).flatten
  String.mk (hex (u.val.take 4) ++ ['-'] ++ hex ((u.val.drop 4).take 2) ++ ['-'] ++
    hex ((u.val.drop 6).take 2) ++ ['-'] ++ hex ((u.val.drop 8).take 2) ++ ['-'] ++
    hex (u.val.drop 10))

/-- `newClientContext`. -/
def newClientContext (env : ChainEnv) (chainID nodeAddress keyringBackend chainHomeDir : String) :
    Except String Context :=
  match env.keyringNew keyringBackend chainHomeDir with
  | some err => .error ("failed to create keyring: " ++ err)
  | none =>
    match env.httpNew nodeAddress with
    | some err => .error ("failed to create RPC client: " ++ err)
    | none => .ok { ChainID := chainID }

/-- `getAccountInfo`: account information from the keyring. -/
def getAccountInfo (env : ChainEnv) (_ctx : Context) (bankAccount : String) :
    Except String (AccAddress × KeyRecord) :=
  match env.Key bankAccount with
  | .error err => .error ("failed to fetch account details: " ++ err)
  | .ok info =>
    match env.GetAddress info with
    | .error err => .error ("failed to get address from key: " ++ err)
    | .ok addr =>
      match env.EnsureExists addr with
      | some err => .error ("failed to ensure account exists: " ++ err)
      | none => .ok (addr, info)

/-- `prepareTx`: a transaction builder with the given message. -/
def prepareTx (env : ChainEnv) (_ctx : Context) (msg : MsgSend) (memo denom : String) :
    Except String TxBuilder :=
  match env.SetMsgs msg with
  | some err => .error ("failed to set message: " ++ err)
  | none =>
    .ok { Msgs := [msg], Memo := memo, FeeAmount := [{ Denom := denom, Amount := 1 }],
          GasLimit := defaultGasLimit }

/-- `getLatestBlockHeight`. -/
def getLatestBlockHeight (env : ChainEnv) (c : RpcCalls) : Except String Int × RpcCalls :=
  (env.Status c.status, { c with status := c.status + 1 })

/-- `waitForBlockHeight`. Each turn of the loop uses one unit of `fuel`; the result is
`none` when the fuel is used up before the loop returns. -/
def waitForBlockHeight (env : ChainEnv) (height : Int) :
    Nat → RpcCalls → Option (Option String × RpcCalls)
  | 0, _ => none
  | fuel + 1, c =>
    let c1 := { c with selects := c.selects + 1 }
    if env.selectTicker c.selects then
      match getLatestBlockHeight env c1 with
      | (.error err, c2) => some (some err, c2)
      | (.ok latestHeight, c2) =>
        if latestHeight ≥ height then some (none, c2)
        else waitForBlockHeight env height fuel c2
    else
      some (some "timeout exceeded waiting for block", c1)

/-- `waitForNextBlock`. The sum `latestHeight + 1` is that of the integers; the `int64`
sum of the code differs from it at the largest `int64` only. -/
def waitForNextBlock (env : ChainEnv) (fuel : Nat) (c : RpcCalls) :
    Option (Option String × RpcCalls) :=
  match getLatestBlockHeight env c with
  | (.error err, c1) => some (some err, c1)
  | (.ok latestHeight, c1) => waitForBlockHeight env (latestHeight + 1) fuel c1

/-- The `for` loop of `waitForTx`. Each turn uses one unit of `fuel`; the result is
`none` when the fuel is used up before the loop returns. -/
def waitForTxLoop (env : ChainEnv) (bHash : List (Fin 256)) :
    Nat → RpcCalls → Option (Except String ResultTx × RpcCalls)
  | 0, _ => none
  | fuel + 1, c =>
    let c1 := { c with tx := c.tx + 1 }
    match env.Tx c.tx bHash with
    | .error err =>
      if stringsContains err "not found" then
        match waitForNextBlock env fuel c1 with
        | none => none
        | some (some err2, c2) => some (.error err2, c2)
        | some (none, c2) => waitForTxLoop env bHash fuel c2
      else
        some (.error ("error fetching transaction: " ++ err), c1)
    | .ok r => some (.ok r, c1)

/-- `waitForTx`: waits for a transaction to be included in a block. -/
def waitForTx (env : ChainEnv) (hash : String) (fuel : Nat) (c : RpcCalls) :
    Option (Except String ResultTx × RpcCalls) :=
  match env.DecodeString hash with
  | .error err => some (.error ("failed to decode hash: " ++ err), c)
  | .ok bHash => waitForTxLoop env bHash fuel c

/-- `signAndBroadcast`: signs and broadcasts the transaction, returning the
transaction response and the block time. `none` when the wait for the transaction
does not return within `fuel`. The factory is built without an account number and
without a sequence, so both read 0 and the account is queried for them. -/
def signAndBroadcast (env : ChainEnv) (fuel : Nat) (ctx : Context) (txBuilder : TxBuilder)
    (bankAccount : String) (info : KeyRecord) :
    Option (Except String (TxResponse × Option Time)) :=
  let txFactory : Factory :=
    { ChainID := ctx.ChainID, Gas := 300000, AccountNumber := 0, Sequence := 0 }
  match env.GetAddress info with
  | .error err => some (.error ("failed to get address: " ++ err))
  | .ok addr =>
    let initNum := txFactory.AccountNumber
    let initSeq := txFactory.Sequence
    let numSeq : Except String Factory :=
      if initNum == 0 || initSeq == 0 then
        match env.GetAccountNumberSequence addr with
        | .error err => .error err
        | .ok (accNum, seqNum) =>
          let f1 := if initNum == 0 then { txFactory with AccountNumber := accNum } else txFactory
          let f2 := if initSeq == 0 then { f1 with Sequence := seqNum } else f1
          .ok f2
      else .ok txFactory
    match numSeq with
    | .error err => some (.error err)
    | .ok txFactory =>
      match env.Sign txFactory bankAccount txBuilder with
      | some err => some (.error ("failed to sign transaction: " ++ err))
      | none =>
        match env.TxEncoder txBuilder with
        | .error err => some (.error ("failed to encode transaction: " ++ err))
        | .ok txBytes =>
          match env.BroadcastTx txBytes with
          | .error err => some (.error ("failed to broadcast transaction: " ++ err))
          | .ok res =>
            match waitForTx env res.TxHash fuel { tx := 0, status := 0, selects := 0 } with
            | none => none
            | some (.error err, _) => some (.error err)
            | some (.ok txResult, _) =>
              match env.Block txResult.Height with
              | .error err => some (.error ("failed to fetch block: " ++ err))
              | .ok blockTime0 =>
                let blockTime := (blockTime0.UTC).Truncate Millisecond
                some (.ok (res, some blockTime))

/-- `sdk.NewCoins` on coins it accepts: the coins of amount zero are removed. -/
def NewCoins (coins : List Coin) : List Coin :=
  coins.filter (fun coin => decide (coin.Amount ≠ 0))

/-- `Migrate`: migrates the given amount of tokens to the address of the work item.
`none` when `signAndBroadcast` does not return within `fuel`. The Bech32 prefix set on
the global SDK configuration is read by the SDK only, behind `AccAddressFromBech32`.
`sdk.NewCoin` and `sdk.NewCoins`, which panic on a malformed denomination or a
negative amount, are taken on the configurations on which they return. -/
def Migrate (env : ChainEnv) (fuel : Nat) (item : WorkItem) (migrateConfig : MigrationConfig) :
    Option (Except String (TxResponse × Option Time)) :=
  match newClientContext env migrateConfig.ChainID migrateConfig.NodeAddress
      migrateConfig.KeyringBackend migrateConfig.ChainHome with
  | .error err => some (.error ("failed to set up client context: " ++ err))
  | .ok clientCtx =>
    match getAccountInfo env clientCtx migrateConfig.BankAddress with
    | .error err => some (.error err)
    | .ok (addr, info) =>
      match env.AccAddressFromBech32 item.ManifestAddress with
      | .error err => some (.error ("failed to parse manifest address: " ++ err))
      | .ok manifestAddr =>
        let msg : MsgSend :=
          { FromAddress := addr, ToAddress := manifestAddr,
            Amount := NewCoins [{ Denom := migrateConfig.Denom, Amount := migrateConfig.Amount }] }
        match prepareTx env clientCtx msg item.UUID.String migrateConfig.Denom with
        | .error err => some (.error err)
        | .ok txBuilder =>
          match signAndBroadcast env fuel clientCtx txBuilder migrateConfig.BankAddress info with
          | none => none
          | some (.error err) => some (.error err)
          | some (.ok (res, blockTime)) => some (.ok (res, blockTime))

/-! ## internal/many/tx.go -/

/-- The Go struct `many.Arguments`. -/
structure Arguments where
  From : String
  To : String
  Amount : String
  Symbol : String
  Memo : List String
  deriving DecidableEq

/-- The Go struct `many.TxInfo`. -/
structure TxInfo where
  Arguments : Arguments
  deriving DecidableEq

/-- An error returned by `CheckTxInfo`, with the arguments of its format. -/
inductive CheckError where
  /-- `fmt.Errorf` of "invalid MANY tx `to` address: %s" with `txInfo.Arguments.To`. -/
  | invalidTo (addr : String)
  /-- `fmt.Errorf("invalid MANY Memo length: %d", len(txInfo.Arguments.Memo))`. -/
  | invalidMemoLength (n : Nat)
  /-- `errors.WithMessagef(err, "invalid MANY tx UUID: %s", txInfo.Arguments.Memo[0])`. -/
  | invalidUUID (err : String) (memo0 : String)
  /-- `fmt.Errorf("invalid manifest destination address: %s", txInfo.Arguments.Memo[1])`. -/
  | invalidDestination (memo1 : String)
  /-- `fmt.Errorf("MANY tx UUID does not match work item UUID: %s, %s", txUUID, itemUUID)`. -/
  | uuidMismatch (txUUID itemUUID : UUID)
  deriving DecidableEq

/-- `CheckTxInfo`. The constant `IllegalAddr` of the package is not among the sources
and `uuid.Parse` belongs to a library: both are parameters. `txInfo` points to a
record. The result is `none` when
an index expression `Memo[i]` is evaluated on a memo without an entry `i`, which ends
the Go program with a run-time panic; `some none` is the `nil` error. -/
def CheckTxInfo (IllegalAddr : String) (Parse : String → Except String UUID)
    (txInfo : TxInfo) (itemUUID : UUID) (manifestAddr : String) :
    Option (Option CheckError) :=
  if txInfo.Arguments.To ≠ IllegalAddr then
    some (some (CheckError.invalidTo txInfo.Arguments.To))
  else if txInfo.Arguments.Memo.length ≠ 2 then
    some (some (CheckError.invalidMemoLength txInfo.Arguments.Memo.length))
  else
    match txInfo.Arguments.Memo[0]? with
    | none => none
    | some memo0 =>
      match Parse memo0 with
      | .error err => some (some (CheckError.invalidUUID err memo0))
      | .ok txUUID =>
        match txInfo.Arguments.Memo[1]? with
        | none => none
        | some memo1 =>
          if memo1 ≠ manifestAddr then
            some (some (CheckError.invalidDestination memo1))
          else if txUUID ≠ itemUUID then
            some (some (CheckError.uuidMismatch txUUID itemUUID))
          else
            some none

/-! ## cmd/migrate.go: the orchestrator -/

/-- Modelled from the spec: the declaration of `cmd.MigrateConfig` is not among the
sources; these are the migration parameters `sendTokens` reads from it. -/
structure MigrateConfig where
  ChainID : String
  NodeAddress : String
  KeyringBackend : String
  ChainHome : String
  AddressPrefix : String
  BankAddress : String
  Amount : Int
  Denom : String
  deriving DecidableEq

/-- A call made by `cmd/migrate.go` to a collaborator. -/
inductive Effect where
  /-- `store.GetWorkItem(r, uuid)`: the registry is read. -/
  | GetWorkItem (uuid : UUID)
  /-- `store.UpdateWorkItemAndSaveState(r, item)`: the record is pushed to the registry
  and written to the local state. -/
  | UpdateWorkItemAndSaveState (item : WorkItem)
  /-- `chain.Migrate(item, config)`: the ledger send. -/
  | Migrate (item : WorkItem) (config : MigrationConfig)
  /-- `os.Remove(name)`: the local state file is deleted. -/
  | Remove (name : String)
  deriving DecidableEq

/-- The answers of the collaborators of `cmd/migrate.go`. `store.GetWorkItem` and
`store.UpdateWorkItemAndSaveState` are not among the sources: they are taken as they
are called. An answer may depend on the calls made before it. -/
structure Env where
  /-- `store.GetWorkItem(r, uuid)`. -/
  GetWorkItem : UUID → Except GoError WorkItem
  /-- `store.UpdateWorkItemAndSaveState(r, item)`: its error, if any. -/
  UpdateWorkItemAndSaveState : List Effect → WorkItem → Option GoError
  /-- `os.Remove(name)`: its error, if any. -/
  Remove : List Effect → String → Option GoError
  /-- The collaborators of `internal/chain`. -/
  chain : ChainEnv

/-- `deleteState`. -/
def deleteState (env : Env) (trace : List Effect) (item : WorkItem) :
    List Effect × Option GoError :=
  let name := item.UUID.String ++ ".json"
  match env.Remove trace name with
  | some err => (trace ++ [Effect.Remove name], some err)
  | none => (trace ++ [Effect.Remove name], none)

/-- `setAsMigrating`: sets the status of the work item to MIGRATING and updates the state. -/
def setAsMigrating (env : Env) (trace : List Effect) (newItem : WorkItem) :
    List Effect × Option GoError :=
  let newItem := { newItem with Status := MIGRATING }
  match env.UpdateWorkItemAndSaveState trace newItem with
  | some err => (trace ++ [Effect.UpdateWorkItemAndSaveState newItem], some err)
  | none => (trace ++ [Effect.UpdateWorkItemAndSaveState newItem], none)

/-- `setAsCompleted`: sets the status of the work item to COMPLETED, sets the manifest
hash and datetime, and updates the state. -/
def setAsCompleted (env : Env) (trace : List Effect) (newItem : WorkItem)
    (txHash : Option String) (blockTime : Option Time) : List Effect × Option GoError :=
  let newItem := { newItem with Status := COMPLETED }
  let newItem := { newItem with ManifestHash := txHash }
  let newItem := { newItem with ManifestDatetime := blockTime }
  match env.UpdateWorkItemAndSaveState trace newItem with
  | some err => (trace ++ [Effect.UpdateWorkItemAndSaveState newItem], some err)
  | none => (trace ++ [Effect.UpdateWorkItemAndSaveState newItem], none)

/-- `setAsFailed`. -/
def setAsFailed (env : Env) (trace : List Effect) (newItem : WorkItem)
    (errStr : Option String) : List Effect × Option GoError :=
  let newItem := { newItem with Status := FAILED }
  let newItem := { newItem with Error := errStr }
  match env.UpdateWorkItemAndSaveState trace newItem with
  | some err => (trace ++ [Effect.UpdateWorkItemAndSaveState newItem], some err)
  | none => (trace ++ [Effect.UpdateWorkItemAndSaveState newItem], none)

/-- `sendTokens`: sends the tokens from the bank account to the user account. The
result is `none` when `chain.Migrate` does not return within `fuel`. -/
def sendTokens (env : Env) (fuel : Nat) (trace : List Effect) (item : WorkItem)
    (config : MigrateConfig) :
    List Effect × Option (Except GoError (Option String × Option Time)) :=
  let chainConfig : MigrationConfig :=
    { ChainID := config.ChainID,
      NodeAddress := config.NodeAddress,
      KeyringBackend := config.KeyringBackend,
      ChainHome := config.ChainHome,
      AddressPrefix := MigrateConfig.AddressPrefix config,
      BankAddress := config.BankAddress,
      Amount := config.Amount,
      Denom := config.Denom }
  let trace1 := trace ++ [Effect.Migrate item chainConfig]
  match Migrate env.chain fuel item chainConfig with
  | none => (trace1, none)
  | some (.error err) =>
    let errStr := err
    match setAsFailed env trace1 item (some errStr) with
    | (trace2, some fErr) => (trace2, some (.error fErr))
    | (trace2, none) => (trace2, some (.error (GoError.text err)))
  | some (.ok (txResponse, blockTime)) =>
    if txResponse.Code != 0 then
      (trace1, some (.error (GoError.migrationFailed txResponse.RawLog)))
    else
      (trace1, some (.ok (some txResponse.TxHash, blockTime)))

/-- What is known of a run of `migrate`: the calls made so far, in order, and the
error returned (`some none` is `nil`); `result` is `none` while the run has not
returned within the fuel given. -/
structure Run where
  trace : List Effect
  result : Option (Option GoError)
  deriving DecidableEq

/-- `migrate`: migrates a work item to the Manifest Ledger. -/
def migrate (env : Env) (fuel : Nat) (item : WorkItem) (config : MigrateConfig) : Run :=
  let trace1 := [Effect.GetWorkItem item.UUID]
  match env.GetWorkItem item.UUID with
  | .error err => { trace := trace1, result := some (some err) }
  | .ok remoteItem =>
    match verifyItemStatus remoteItem with
    | some err => { trace := trace1, result := some (some err) }
    | none =>
      match compareItems item remoteItem with
      | some err => { trace := trace1, result := some (some err) }
      | none =>
        let newItem := item
        let migrating : List Effect × Option GoError :=
          if newItem.Status != MIGRATING then setAsMigrating env trace1 newItem
          else (trace1, none)
        match migrating with
        | (trace2, some err) => { trace := trace2, result := some (some err) }
        | (trace2, none) =>
          match sendTokens env fuel trace2 newItem config with
          | (trace3, none) => { trace := trace3, result := none }
          | (trace3, some (.error err)) => { trace := trace3, result := some (some err) }
          | (trace3, some (.ok (txHash, blockTime))) =>
            match setAsCompleted env trace3 newItem txHash blockTime with
            | (trace4, some err) => { trace := trace4, result := some (some err) }
            | (trace4, none) =>
              match deleteState env trace4 newItem with
              | (trace5, some err) => { trace := trace5, result := some (some err) }
              | (trace5, none) => { trace := trace5, result := some none }

/-! ## Words of the specification, and sample data -/

/-- An optional field counts as different when one side is absent and the other
present, or when both are present with different values. -/
def optionalDiffers {α : Type} [DecidableEq α] : Option α → Option α → Bool
  | none, none => false
  | some x, some y => decide (x ≠ y)
  | _, _ => true

/-- For each of the eight fields of a work item, in the order of the struct, whether
the two items differ in it. -/
def differingFields (a b : WorkItem) : List Bool :=
  [decide (a.Status ≠ b.Status),
   optionalDiffers a.CreatedDate b.CreatedDate,
   decide (a.UUID ≠ b.UUID),
   decide (a.ManyHash ≠ b.ManyHash),
   decide (a.ManifestAddress ≠ b.ManifestAddress),
   optionalDiffers a.ManifestHash b.ManifestHash,
   optionalDiffers a.ManifestDatetime b.ManifestDatetime,
   optionalDiffers a.Error b.Error]

/-- The UUID 00010203-0405-0607-0809-0a0b0c0d0e0f. -/
def sampleUUID : UUID :=
  ⟨[0, 1, 2, 3, 4, 5, 6, 7, 8, 9, 10, 11, 12, 13, 14, 15], rfl⟩

/-- A claimed work item with no result and no error. -/
def sampleItem : WorkItem :=
  { Status := CLAIMED, CreatedDate := some { unixNano := 1700000000000000000 },
    UUID := sampleUUID, ManyHash := "d1e60bf3", ManifestAddress := "manifest1abc",
    ManifestHash := none, ManifestDatetime := none, Error := none }

/-- The block time 2024-01-01T00:00:00.000Z and 123456 nanoseconds. -/
def sampleBlockTime : Time := { unixNano := 1704067200000123456 }

/-- A ledger on which every step succeeds: the broadcast answers code 0 and hash ABCD,
the first lookup finds the transaction at height 100. -/
def sampleChain : ChainEnv :=
  { keyringNew := fun _ _ => none,
    httpNew := fun _ => none,
    Key := fun name => .ok { Name := name },
    GetAddress := fun _ => .ok [1, 2, 3],
    EnsureExists := fun _ => none,
    AccAddressFromBech32 := fun _ => .ok [4, 5, 6],
    SetMsgs := fun _ => none,
    GetAccountNumberSequence := fun _ => .ok (7, 1),
    Sign := fun _ _ _ => none,
    TxEncoder := fun _ => .ok [9, 9],
    BroadcastTx := fun _ => .ok { Code := 0, TxHash := "ABCD", RawLog := "" },
    DecodeString := fun _ => .ok [171, 205],
    Tx := fun _ _ => .ok { Height := 100 },
    Status := fun _ => .ok 100,
    selectTicker := fun _ => true,
    Block := fun _ => .ok sampleBlockTime }

/-- A registry that holds `sampleItem` and accepts every update; the local state
file can be deleted. -/
def sampleEnv : Env :=
  { GetWorkItem := fun _ => .ok sampleItem,
    UpdateWorkItemAndSaveState := fun _ _ => none,
    Remove := fun _ _ => none,
    chain := sampleChain }

/-- Migration parameters. -/
def sampleConfig : MigrateConfig :=
  { ChainID := "manifest-1", NodeAddress := "http://localhost:26657",
    KeyringBackend := "test", ChainHome := "/tmp", AddressPrefix := "manifest",
    BankAddress := "bank", Amount := 1000, Denom := "umfx" }

/-- The configuration `sendTokens` hands to `chain.Migrate`. -/
def chainConfigOf (config : MigrateConfig) : MigrationConfig :=
  { ChainID := config.ChainID,
    NodeAddress := config.NodeAddress,
    KeyringBackend := config.KeyringBackend,
    ChainHome := config.ChainHome,
    AddressPrefix := MigrateConfig.AddressPrefix config,
    BankAddress := config.BankAddress,
    Amount := config.Amount,
    Denom := config.Denom }

/-- The registry cannot be reached. -/
def unreachableEnv : Env :=
  { sampleEnv with GetWorkItem := fun _ => .error (GoError.text "connection refused") }

/-- The registry holds the item with status FAILED, while the local copy is
`sampleItem`, claimed and without an error. -/
def divergedEnv : Env :=
  { sampleEnv with GetWorkItem := fun _ => .ok { sampleItem with Status := FAILED } }

/-- The registry holds the item, claimed, with another destination address. -/
def mismatchEnv : Env :=
  { sampleEnv with
    GetWorkItem := fun _ => .ok { sampleItem with ManifestAddress := "manifest1xyz" } }

/-- The calls `migrate` has made when it reaches the ledger send, after a
verification that passed: the registry read and, unless the item is already
MIGRATING, the MIGRATING update. -/
def tracePrefix (item : WorkItem) : List Effect :=
  if item.Status = MIGRATING then [Effect.GetWorkItem item.UUID]
  else [Effect.GetWorkItem item.UUID,
        Effect.UpdateWorkItemAndSaveState { item with Status := MIGRATING }]

/-- The status of the last record pushed in a trace, if a record was pushed. -/
def lastPushedStatus (trace : List Effect) : Option WorkItemStatus :=
  trace.foldl
    (fun acc e =>
      match e with
      | Effect.UpdateWorkItemAndSaveState w => some w.Status
      | _ => acc)
    none

/-- The records pushed in a trace, in order. -/
def pushedItems (trace : List Effect) : List WorkItem :=
  trace.filterMap
    (fun e =>
      match e with
      | Effect.UpdateWorkItemAndSaveState w => some w
      | _ => none)

/-- The steps of `chain.Migrate` up to and including the broadcast succeed, and the
broadcast answers `res`. -/
def BroadcastSucceeds (env : ChainEnv) (item : WorkItem) (cfg : MigrationConfig)
    (res : TxResponse) : Prop :=
  ∃ (ctx : Context) (addr : AccAddress) (info : KeyRecord) (manifestAddr : AccAddress)
    (txBuilder : TxBuilder) (signer : AccAddress) (accNum seqNum : Nat)
    (txBytes : List (Fin 256)),
    newClientContext env cfg.ChainID cfg.NodeAddress cfg.KeyringBackend cfg.ChainHome
      = .ok ctx ∧
    getAccountInfo env ctx cfg.BankAddress = .ok (addr, info) ∧
    env.AccAddressFromBech32 item.ManifestAddress = .ok manifestAddr ∧
    prepareTx env ctx
      { FromAddress := addr, ToAddress := manifestAddr,
        Amount := NewCoins [{ Denom := cfg.Denom, Amount := cfg.Amount }] }
      item.UUID.String cfg.Denom = .ok txBuilder ∧
    env.GetAddress info = .ok signer ∧
    env.GetAccountNumberSequence signer = .ok (accNum, seqNum) ∧
    env.Sign { ChainID := ctx.ChainID, Gas := 300000, AccountNumber := accNum,
               Sequence := seqNum } cfg.BankAddress txBuilder = none ∧
    env.TxEncoder txBuilder = .ok txBytes ∧
    env.BroadcastTx txBytes = .ok res

/-- The text of the error of `waitForBlockHeight` when its 30 second case is taken. -/
def timeoutText : String := "timeout exceeded waiting for block"

/-- The broadcast answers code 5 with a diagnostic log, and the lookup then finds the
transaction. -/
def rejectedEnv : Env :=
  { sampleEnv with
    chain := { sampleChain with
      BroadcastTx := fun _ =>
        .ok { Code := 5, TxHash := "ABCD", RawLog := "insufficient funds" } } }

/-- The keyring cannot be opened, and the registry refuses every FAILED update. -/
def brokenEnv : Env :=
  { sampleEnv with
    UpdateWorkItemAndSaveState := fun _ w =>
      if w.Status = FAILED then some (GoError.text "registry unreachable") else none,
    chain := { sampleChain with keyringNew := fun _ _ => some "keyring locked" } }

/-- The keyring cannot be opened; the registry accepts every update. -/
def lockedEnv : Env :=
  { sampleEnv with
    chain := { sampleChain with keyringNew := fun _ _ => some "keyring locked" } }

/-- A work item that is already MIGRATING. -/
def migratingItem : WorkItem := { sampleItem with Status := MIGRATING }

/-- The registry holds `migratingItem`. -/
def resumedEnv : Env :=
  { sampleEnv with GetWorkItem := fun _ => .ok migratingItem }

/-- The registry refuses every MIGRATING update. -/
def refusingEnv : Env :=
  { sampleEnv with
    UpdateWorkItemAndSaveState := fun _ w =>
      if w.Status = MIGRATING then some (GoError.text "registry unreachable") else none }

/-- The registry refuses every COMPLETED update. -/
def lateRefusingEnv : Env :=
  { sampleEnv with
    UpdateWorkItemAndSaveState := fun _ w =>
      if w.Status = COMPLETED then some (GoError.text "registry unreachable") else none }

/-- A transaction builder as `prepareTx` leaves it, for a transfer of 1000 umfx. -/
def sampleTxBuilder : TxBuilder :=
  { Msgs := [{ FromAddress := [1, 2, 3], ToAddress := [4, 5, 6],
               Amount := [{ Denom := "umfx", Amount := 1000 }] }],
    Memo := "00010203-0405-0607-0809-0a0b0c0d0e0f",
    FeeAmount := [{ Denom := "umfx", Amount := 1 }],
    GasLimit := defaultGasLimit }

/-- A stand-in for `uuid.Parse` that knows the text of `sampleUUID` and of one other
UUID, and rejects every other text. -/
def sampleParse (s : String) : Except String UUID :=
  if s = "00010203-0405-0607-0809-0a0b0c0d0e0f" then .ok sampleUUID
  else if s = "00000000-0000-0000-0000-000000000000" then
    .ok ⟨[0, 0, 0, 0, 0, 0, 0, 0, 0, 0, 0, 0, 0, 0, 0, 0], rfl⟩
  else .error "invalid UUID format"

/-- A transaction of the legacy chain sent to the illegal address, with the UUID of
`sampleItem` and its destination address in the memo. -/
def sampleTxInfo : TxInfo :=
  { Arguments :=
      { From := "maffbahksdwaqeenayy2gxke32hgb7aq4ao4wt745lsfs6wijp", To := "maiyg",
        Amount := "1000", Symbol := "mfx",
        Memo := ["00010203-0405-0607-0809-0a0b0c0d0e0f", "manifest1abc"] } }

/-- The transaction is not found at the first two lookups and found at the third, at
height 102; the chain gains a block at every status call. -/
def slowChain : ChainEnv :=
  { sampleChain with
    Tx := fun i _ => if i < 2 then .error "tx (ABCD) not found" else .ok { Height := 102 },
    Status := fun i => .ok (100 + (i : Int)) }

/-- The node refuses every lookup. -/
def refusedChain : ChainEnv :=
  { sampleChain with Tx := fun _ _ => .error "connection refused" }

/-! ### The clock of `waitForBlockHeight`

Times are nanoseconds since `time.NewTicker(time.Second)` was called. The ticker
sends at every multiple of a second into a channel that holds one value and drops the
ticks that find it full. `time.After(30 * time.Second)` is an operand of the `select`:
it is evaluated, and a new timer started, every time the `select` is entered. -/

/-- `time.Second`, a `time.Duration` in nanoseconds. -/
def Second : Nat := 1000000000

/-- The clock as a `select` of `waitForBlockHeight` is entered: the time, and the time
at which the loop last received from `ticker.C` (0 before the first tick). -/
structure Clock where
  now : Nat
  lastTick : Nat
  deriving DecidableEq

/-- The time of the first tick that the loop has not received yet: the first multiple
of a second after the last tick received. -/
def Clock.nextTick (k : Clock) : Nat :=
  (k.lastTick / Second + 1) * Second

/-- The time at which the timer of `time.After(30 * time.Second)`, started as the
`select` is entered, fires. -/
def Clock.timer (k : Clock) : Nat :=
  k.now + 30 * Second

/-- The case the `select` takes: `<-ticker.C` (`true`) when the next tick is there no
later than the timer fires, `<-time.After(30 * time.Second)` (`false`) otherwise. -/
def Clock.selectTicker (k : Clock) : Bool :=
  decide (k.nextTick ≤ k.timer)

/-- The clock at the next `select`, after a tick was received (at once when it was
waiting in the channel, else when it was sent) and the status call took `took`
nanoseconds. -/
def Clock.afterPoll (k : Clock) (took : Nat) : Clock :=
  { now := max k.now k.nextTick + took, lastTick := max k.now k.nextTick }

/-- The clock at the `select` number `i` of one call of `waitForBlockHeight`, when the
status call after the `select` number `j` takes `took j` nanoseconds. -/
def clockAt (took : Nat → Nat) : Nat → Clock
  | 0 => { now := 0, lastTick := 0 }
  | i + 1 => (clockAt took i).afterPoll (took i)

/-- The cases the `select`s of one call of `waitForBlockHeight` take under the clock. -/
def selectByClock (took : Nat → Nat) (i : Nat) : Bool :=
  (clockAt took i).selectTicker

/-- A node whose chain has stopped at height 100: every status call answers 100, at
once, and the `select`s follow the clock. -/
def stalledChain : ChainEnv :=
  { sampleChain with
    Status := fun _ => .ok 100,
    selectTicker := selectByClock (fun _ => 0) }

/-- The largest `int64`, the type of a block height in the code. -/
def maxInt64 : Int := 9223372036854775807

/-- The transaction is never found; the first status call answers height 100 and every
later one fails with "connection refused"; the `select`s follow the clock. -/
def failedStatusChain : ChainEnv :=
  { sampleChain with
    Tx := fun _ _ => .error "tx (ABCD) not found",
    Status := fun i => if i = 0 then .ok 100 else .error "connection refused",
    selectTicker := selectByClock (fun _ => 0) }

/-- The ledger of `failedStatusChain` behind the sample registry. -/
def failedStatusEnv : Env :=
  { sampleEnv with chain := failedStatusChain }

/-- The transaction is never found; the first status call answers height 100 and every
later one fails with an error of the node whose text is "timeout exceeded waiting for
block"; the `select`s follow the clock. -/
def relayedTimeoutChain : ChainEnv :=
  { sampleChain with
    Tx := fun _ _ => .error "tx (ABCD) not found",
    Status := fun i => if i = 0 then .ok 100 else .error timeoutText,
    selectTicker := selectByClock (fun _ => 0) }

/-- The ledger of `relayedTimeoutChain` behind the sample registry. -/
def relayedTimeoutEnv : Env :=
  { sampleEnv with chain := relayedTimeoutChain }

/-- The transaction is not found at the first lookup and found at the second, at
height 101; the chain stays at height 100 for the first three status calls and is at
height 101 from the fourth on; the `select`s follow the clock. -/
def haltingChain : ChainEnv :=
  { sampleChain with
    Tx := fun i _ => if i = 0 then .error "tx (ABCD) not found" else .ok { Height := 101 },
    Status := fun i => if i < 3 then .ok 100 else .ok 101,
    selectTicker := selectByClock (fun _ => 0) }

/-- The transaction is never found and the chain has stopped at height 100: every
status call answers 100; the `select`s follow the clock. -/
def unconfirmedEnv : Env :=
  { sampleEnv with
    chain := { stalledChain with Tx := fun _ _ => .error "tx (ABCD) not found" } }

/-! ## Theorems -/

theorem EqualTimePtr_iff (a b : Option Time) : EqualTimePtr a b = true ↔ a = b := by
  cases a <;> cases b <;> simp [EqualTimePtr]

theorem EqualStringPtr_iff (a b : Option String) : EqualStringPtr a b = true ↔ a = b := by
  cases a <;> cases b <;> simp [EqualStringPtr]

theorem optionalDiffers_iff {α : Type} [DecidableEq α] (a b : Option α) :
    optionalDiffers a b = false ↔ a = b := by
  cases a <;> cases b <;> simp [optionalDiffers]

theorem Equal_iff_eq (a b : WorkItem) : a.Equal b = true ↔ a = b := by
  cases a; cases b
  simp [WorkItem.Equal, EqualTimePtr_iff, EqualStringPtr_iff, and_assoc]

theorem differingFields_none_iff (a b : WorkItem) :
    (differingFields a b).count true = 0 ↔ a = b := by
  cases a; cases b
  simp [differingFields, List.count_eq_zero, optionalDiffers_iff, and_assoc]

/-- C1. `verifyItemStatus` returns no error exactly when the status of the item is
CLAIMED or MIGRATING; on an item whose status is CREATED, COMPLETED or FAILED it
returns the error built from the UUID and the status. -/
theorem verifyItemStatus_accepts_iff (item : WorkItem) :
    (verifyItemStatus item = none ↔ (item.Status = CLAIMED ∨ item.Status = MIGRATING)) ∧
    verifyItemStatus { item with Status := CREATED }
      = some (GoError.statusNotValid item.UUID CREATED) ∧
    verifyItemStatus { item with Status := COMPLETED }
      = some (GoError.statusNotValid item.UUID COMPLETED) ∧
    verifyItemStatus { item with Status := FAILED }
      = some (GoError.statusNotValid item.UUID FAILED) := by
  refine ⟨?_, rfl, rfl, rfl⟩
  unfold verifyItemStatus
  by_cases h1 : item.Status = CLAIMED <;> by_cases h2 : item.Status = MIGRATING <;>
    simp [h1, h2]

/-- C2. Two work items that differ in exactly one of the eight fields are not `Equal`,
and `compareItems` returns the error that they do not match; two work items that
differ in none of them are `Equal`, and `compareItems` returns no error. -/
theorem Equal_single_field_mismatch (a b : WorkItem) :
    ((differingFields a b).count true = 1 →
      a.Equal b = false ∧
      compareItems a b = some (GoError.itemsDoNotMatch a.UUID b.UUID)) ∧
    ((differingFields a b).count true = 0 →
      a.Equal b = true ∧ compareItems a b = none) := by
  constructor
  · intro h
    have hne : ¬ a = b := by
      intro hab
      have h0 := (differingFields_none_iff a b).mpr hab
      omega
    have hE : a.Equal b = false := by
      cases hEq : a.Equal b
      · rfl
      · exact absurd ((Equal_iff_eq a b).mp hEq) hne
    simp [compareItems, hE]
  · intro h
    have hab := (differingFields_none_iff a b).mp h
    have hE : a.Equal b = true := (Equal_iff_eq a b).mpr hab
    simp [compareItems, hE]

/-- C2, at a pair that differs in the presence of `Error` only, and at a pair that
does not differ. -/
theorem Equal_single_field_mismatch_witness :
    ((differingFields sampleItem { sampleItem with Error := some "x" }).count true = 1 ∧
      sampleItem.Equal { sampleItem with Error := some "x" } = false ∧
      compareItems sampleItem { sampleItem with Error := some "x" }
        = some (GoError.itemsDoNotMatch sampleUUID sampleUUID)) ∧
    ((differingFields sampleItem sampleItem).count true = 0 ∧
      sampleItem.Equal sampleItem = true ∧ compareItems sampleItem sampleItem = none) :=
  ⟨⟨by decide,
    (Equal_single_field_mismatch sampleItem { sampleItem with Error := some "x" }).1 (by decide)⟩,
   ⟨by decide, (Equal_single_field_mismatch sampleItem sampleItem).2 (by decide)⟩⟩

/-- C3. When the registry copy cannot be fetched, or its status is neither CLAIMED nor
MIGRATING, or the local and registry copies are not `Equal`, `migrate` returns an
error and the only call it has made is the registry read: no update of the registry
or of the local state, no ledger send, no deletion of the local state. -/
theorem migrate_verification_failure (env : Env) (fuel : Nat) (item : WorkItem)
    (config : MigrateConfig) :
    (∀ err, env.GetWorkItem item.UUID = .error err →
      migrate env fuel item config
        = { trace := [Effect.GetWorkItem item.UUID], result := some (some err) }) ∧
    (∀ remoteItem, env.GetWorkItem item.UUID = .ok remoteItem →
      (¬ (remoteItem.Status = CLAIMED ∨ remoteItem.Status = MIGRATING) ∨
        item.Equal remoteItem = false) →
      ∃ err, migrate env fuel item config
        = { trace := [Effect.GetWorkItem item.UUID], result := some (some err) }) := by
  constructor
  · intro err h
    simp [migrate, h]
  · intro remoteItem h hbad
    by_cases hst : remoteItem.Status = CLAIMED ∨ remoteItem.Status = MIGRATING
    · have hE : item.Equal remoteItem = false := by
        rcases hbad with hbad | hbad
        · exact absurd hst hbad
        · exact hbad
      have hv : verifyItemStatus remoteItem = none := by
        rcases hst with hst | hst <;> simp [verifyItemStatus, hst]
      exact ⟨GoError.itemsDoNotMatch item.UUID remoteItem.UUID, by
        simp [migrate, h, hv, compareItems, hE]⟩
    · have hv : verifyItemStatus remoteItem
          = some (GoError.statusNotValid remoteItem.UUID remoteItem.Status) := by
        have h1 : ¬ remoteItem.Status = CLAIMED := fun hc => hst (Or.inl hc)
        have h2 : ¬ remoteItem.Status = MIGRATING := fun hc => hst (Or.inr hc)
        simp [verifyItemStatus, h1, h2]
      exact ⟨GoError.statusNotValid remoteItem.UUID remoteItem.Status, by
        simp [migrate, h, hv]⟩

/-- C3, at a registry that cannot be reached, at a registry copy with status FAILED
against a claimed local copy without error, and at a registry copy with another
destination address. -/
theorem migrate_verification_failure_witness :
    migrate unreachableEnv 1 sampleItem sampleConfig
      = { trace := [Effect.GetWorkItem sampleUUID],
          result := some (some (GoError.text "connection refused")) } ∧
    (∃ err, migrate divergedEnv 1 sampleItem sampleConfig
      = { trace := [Effect.GetWorkItem sampleUUID], result := some (some err) }) ∧
    (∃ err, migrate mismatchEnv 1 sampleItem sampleConfig
      = { trace := [Effect.GetWorkItem sampleUUID], result := some (some err) }) :=
  ⟨(migrate_verification_failure unreachableEnv 1 sampleItem sampleConfig).1 _ rfl,
   (migrate_verification_failure divergedEnv 1 sampleItem sampleConfig).2
      { sampleItem with Status := FAILED } rfl (Or.inl (by decide)),
   (migrate_verification_failure mismatchEnv 1 sampleItem sampleConfig).2
      { sampleItem with ManifestAddress := "manifest1xyz" } rfl (Or.inr (by decide))⟩

theorem verifyItemStatus_eq_none {item : WorkItem}
    (h : item.Status = CLAIMED ∨ item.Status = MIGRATING) : verifyItemStatus item = none := by
  rcases h with h | h <;> simp [verifyItemStatus, h]

theorem compareItems_eq_none {a b : WorkItem} (h : a.Equal b = true) :
    compareItems a b = none := by
  simp [compareItems, h]

theorem setAsMigrating_eq (env : Env) (trace : List Effect) (item : WorkItem) :
    setAsMigrating env trace item
      = (trace ++ [Effect.UpdateWorkItemAndSaveState { item with Status := MIGRATING }],
         env.UpdateWorkItemAndSaveState trace { item with Status := MIGRATING }) := by
  simp only [setAsMigrating]
  split <;> simp_all

theorem setAsCompleted_eq (env : Env) (trace : List Effect) (item : WorkItem)
    (txHash : Option String) (blockTime : Option Time) :
    setAsCompleted env trace item txHash blockTime
      = (trace ++ [Effect.UpdateWorkItemAndSaveState
            { item with Status := COMPLETED, ManifestHash := txHash,
                        ManifestDatetime := blockTime }],
         env.UpdateWorkItemAndSaveState trace
            { item with Status := COMPLETED, ManifestHash := txHash,
                        ManifestDatetime := blockTime }) := by
  simp only [setAsCompleted]
  split <;> simp_all

theorem setAsFailed_eq (env : Env) (trace : List Effect) (item : WorkItem)
    (errStr : Option String) :
    setAsFailed env trace item errStr
      = (trace ++ [Effect.UpdateWorkItemAndSaveState
            { item with Status := FAILED, Error := errStr }],
         env.UpdateWorkItemAndSaveState trace { item with Status := FAILED, Error := errStr }) := by
  simp only [setAsFailed]
  split <;> simp_all

theorem deleteState_eq (env : Env) (trace : List Effect) (item : WorkItem) :
    deleteState env trace item
      = (trace ++ [Effect.Remove (item.UUID.String ++ ".json")],
         env.Remove trace (item.UUID.String ++ ".json")) := by
  simp only [deleteState]
  split <;> simp_all

theorem sendTokens_of_none (env : Env) (fuel : Nat) (trace : List Effect) (item : WorkItem)
    (config : MigrateConfig)
    (h : Migrate env.chain fuel item (chainConfigOf config) = none) :
    sendTokens env fuel trace item config
      = (trace ++ [Effect.Migrate item (chainConfigOf config)], none) := by
  unfold chainConfigOf at h
  simp [sendTokens, h, chainConfigOf]

theorem sendTokens_of_error (env : Env) (fuel : Nat) (trace : List Effect) (item : WorkItem)
    (config : MigrateConfig) (E : String)
    (h : Migrate env.chain fuel item (chainConfigOf config) = some (.error E)) :
    sendTokens env fuel trace item config
      = (trace ++ [Effect.Migrate item (chainConfigOf config),
                   Effect.UpdateWorkItemAndSaveState
                     { item with Status := FAILED, Error := some E }],
         some (.error
           (match env.UpdateWorkItemAndSaveState
               (trace ++ [Effect.Migrate item (chainConfigOf config)])
               { item with Status := FAILED, Error := some E } with
            | some fErr => fErr
            | none => GoError.text E))) := by
  unfold chainConfigOf at h
  simp only [sendTokens, h, setAsFailed_eq, chainConfigOf]
  split <;> simp_all

theorem sendTokens_of_ok (env : Env) (fuel : Nat) (trace : List Effect) (item : WorkItem)
    (config : MigrateConfig) (res : TxResponse) (blockTime : Option Time)
    (h : Migrate env.chain fuel item (chainConfigOf config) = some (.ok (res, blockTime))) :
    sendTokens env fuel trace item config
      = (trace ++ [Effect.Migrate item (chainConfigOf config)],
         if res.Code = 0 then some (.ok (some res.TxHash, blockTime))
         else some (.error (GoError.migrationFailed res.RawLog))) := by
  unfold chainConfigOf at h
  simp only [sendTokens, h, chainConfigOf]
  by_cases hc : res.Code = 0 <;> simp [hc]

theorem Migrate_of_broadcast (env : ChainEnv) (fuel : Nat) (item : WorkItem)
    (cfg : MigrationConfig) (res : TxResponse) (h : BroadcastSucceeds env item cfg res) :
    Migrate env fuel item cfg
      = (match waitForTx env res.TxHash fuel { tx := 0, status := 0, selects := 0 } with
         | none => none
         | some (.error err, _) => some (.error err)
         | some (.ok txResult, _) =>
           match env.Block txResult.Height with
           | .error err => some (.error ("failed to fetch block: " ++ err))
           | .ok blockTime0 => some (.ok (res, some ((blockTime0.UTC).Truncate Millisecond)))) := by
  obtain ⟨ctx, addr, info, manifestAddr, txBuilder, signer, accNum, seqNum, txBytes,
    h1, h2, h3, h4, h5, h6, h7, h8, h9⟩ := h
  simp only [Migrate, h1, h2, h3, h4, signAndBroadcast, h5, h6, h7, h8, h9]
  simp only [beq_self_eq_true, Bool.or_self, if_true, h7]
  split <;> simp_all

theorem migrate_after_verification (env : Env) (fuel : Nat) (item remoteItem : WorkItem)
    (config : MigrateConfig)
    (hget : env.GetWorkItem item.UUID = .ok remoteItem)
    (hst : remoteItem.Status = CLAIMED ∨ remoteItem.Status = MIGRATING)
    (heq : item.Equal remoteItem = true)
    (hmig : item.Status ≠ MIGRATING →
      env.UpdateWorkItemAndSaveState [Effect.GetWorkItem item.UUID]
        { item with Status := MIGRATING } = none) :
    migrate env fuel item config
      = (match sendTokens env fuel (tracePrefix item) item config with
         | (trace3, none) => { trace := trace3, result := none }
         | (trace3, some (.error err)) => { trace := trace3, result := some (some err) }
         | (trace3, some (.ok (txHash, blockTime))) =>
           match env.UpdateWorkItemAndSaveState trace3
               { item with Status := COMPLETED, ManifestHash := txHash,
                           ManifestDatetime := blockTime } with
           | some err =>
             { trace := trace3 ++ [Effect.UpdateWorkItemAndSaveState
                 { item with Status := COMPLETED, ManifestHash := txHash,
                             ManifestDatetime := blockTime }],
               result := some (some err) }
           | none =>
             { trace := trace3 ++ [Effect.UpdateWorkItemAndSaveState
                 { item with Status := COMPLETED, ManifestHash := txHash,
                             ManifestDatetime := blockTime },
                 Effect.Remove (item.UUID.String ++ ".json")],
               result := some (env.Remove
                 (trace3 ++ [Effect.UpdateWorkItemAndSaveState
                   { item with Status := COMPLETED, ManifestHash := txHash,
                               ManifestDatetime := blockTime }])
                 (item.UUID.String ++ ".json")) }) := by
  have hrem : remoteItem = item := ((Equal_iff_eq item remoteItem).mp heq).symm
  subst hrem
  have hv : verifyItemStatus remoteItem = none := verifyItemStatus_eq_none hst
  have hc : compareItems remoteItem remoteItem = none := compareItems_eq_none heq
  have h0 : (MIGRATING != MIGRATING) = false := by decide
  have key : ∀ (t : List Effect),
      (match sendTokens env fuel t remoteItem config with
        | (trace3, none) => ({ trace := trace3, result := none } : Run)
        | (trace3, some (.error err)) => { trace := trace3, result := some (some err) }
        | (trace3, some (.ok (txHash, blockTime))) =>
          match setAsCompleted env trace3 remoteItem txHash blockTime with
          | (trace4, some err) => { trace := trace4, result := some (some err) }
          | (trace4, none) =>
            match deleteState env trace4 remoteItem with
            | (trace5, some err) => { trace := trace5, result := some (some err) }
            | (trace5, none) => { trace := trace5, result := some none })
      = (match sendTokens env fuel t remoteItem config with
         | (trace3, none) => { trace := trace3, result := none }
         | (trace3, some (.error err)) => { trace := trace3, result := some (some err) }
         | (trace3, some (.ok (txHash, blockTime))) =>
           match env.UpdateWorkItemAndSaveState trace3
               { remoteItem with Status := COMPLETED, ManifestHash := txHash,
                                     ManifestDatetime := blockTime } with
           | some err =>
             { trace := trace3 ++ [Effect.UpdateWorkItemAndSaveState
                 { remoteItem with Status := COMPLETED, ManifestHash := txHash,
                                     ManifestDatetime := blockTime }],
               result := some (some err) }
           | none =>
             { trace := trace3 ++ [Effect.UpdateWorkItemAndSaveState
                 { remoteItem with Status := COMPLETED, ManifestHash := txHash,
                                     ManifestDatetime := blockTime },
                 Effect.Remove (remoteItem.UUID.String ++ ".json")],
               result := some (env.Remove
                 (trace3 ++ [Effect.UpdateWorkItemAndSaveState
                   { remoteItem with Status := COMPLETED, ManifestHash := txHash,
                                     ManifestDatetime := blockTime }])
                 (remoteItem.UUID.String ++ ".json")) }) := by
    intro t
    generalize sendTokens env fuel t remoteItem config = r
    obtain ⟨t3, r⟩ := r
    rcases r with _ | (err | ⟨h, bt⟩)
    · rfl
    · rfl
    · simp only [setAsCompleted_eq, deleteState_eq]
      cases env.UpdateWorkItemAndSaveState t3
          { remoteItem with Status := COMPLETED, ManifestHash := h, ManifestDatetime := bt } with
      | some err => rfl
      | none =>
        simp only [List.append_assoc, List.singleton_append]
        cases env.Remove (t3 ++ [Effect.UpdateWorkItemAndSaveState
          { remoteItem with Status := COMPLETED, ManifestHash := h, ManifestDatetime := bt }])
          (remoteItem.UUID.String ++ ".json") <;> rfl
  by_cases hm : remoteItem.Status = MIGRATING
  · have hne : (remoteItem.Status != MIGRATING) = false := by simp [hm]
    simp only [migrate, hget, hv, hc, hne, tracePrefix, hm, if_true]
    exact key _
  · have hne : (remoteItem.Status != MIGRATING) = true := by simp [hm]
    simp only [migrate, hget, hv, hc, hne, tracePrefix, hm, if_false, if_true,
      setAsMigrating_eq, hmig hm]
    exact key _

theorem migrate_cases (env : Env) (fuel : Nat) (item : WorkItem) (config : MigrateConfig) :
    (∃ err, migrate env fuel item config
        = { trace := [Effect.GetWorkItem item.UUID], result := some (some err) } ∧
      ¬ (env.GetWorkItem item.UUID = .ok item ∧
          (item.Status = CLAIMED ∨ item.Status = MIGRATING))) ∨
    (∃ err, migrate env fuel item config
        = { trace := tracePrefix item, result := some (some err) } ∧
      item.Status ≠ MIGRATING ∧
      env.UpdateWorkItemAndSaveState [Effect.GetWorkItem item.UUID]
        { item with Status := MIGRATING } = some err) ∨
    (env.GetWorkItem item.UUID = .ok item ∧
      (item.Status = CLAIMED ∨ item.Status = MIGRATING) ∧
      (item.Status ≠ MIGRATING →
        env.UpdateWorkItemAndSaveState [Effect.GetWorkItem item.UUID]
          { item with Status := MIGRATING } = none)) := by
  cases hget : env.GetWorkItem item.UUID with
  | error err =>
    left
    exact ⟨err, by simp [migrate, hget], by simp⟩
  | ok remoteItem =>
    by_cases hst : remoteItem.Status = CLAIMED ∨ remoteItem.Status = MIGRATING
    · have hv : verifyItemStatus remoteItem = none := verifyItemStatus_eq_none hst
      cases hE : item.Equal remoteItem with
      | false =>
        left
        refine ⟨GoError.itemsDoNotMatch item.UUID remoteItem.UUID, by
          simp [migrate, hget, hv, compareItems, hE], ?_⟩
        rintro ⟨h1, -⟩
        have h2 : remoteItem = item := by simpa using h1
        rw [h2] at hE
        have h3 := (Equal_iff_eq item item).mpr rfl
        rw [h3] at hE
        exact Bool.noConfusion hE
      | true =>
        have hrem : remoteItem = item := ((Equal_iff_eq item remoteItem).mp hE).symm
        subst hrem
        have hc : compareItems remoteItem remoteItem = none := compareItems_eq_none hE
        by_cases hm : remoteItem.Status = MIGRATING
        · right; right
          exact ⟨rfl, hst, fun h => absurd hm h⟩
        · cases hu : env.UpdateWorkItemAndSaveState [Effect.GetWorkItem remoteItem.UUID]
              { remoteItem with Status := MIGRATING } with
          | none =>
            right; right
            exact ⟨rfl, hst, fun _ => rfl⟩
          | some err =>
            right; left
            have hne : (remoteItem.Status != MIGRATING) = true := by simp [hm]
            refine ⟨err, ?_, hm, rfl⟩
            simp [migrate, hget, hv, hc, hne, setAsMigrating_eq, hu, tracePrefix, hm]
    · left
      have h1 : ¬ remoteItem.Status = CLAIMED := fun hc => hst (Or.inl hc)
      have h2 : ¬ remoteItem.Status = MIGRATING := fun hc => hst (Or.inr hc)
      refine ⟨GoError.statusNotValid remoteItem.UUID remoteItem.Status, by
        simp [migrate, hget, verifyItemStatus, h1, h2], ?_⟩
      rintro ⟨h3, h4⟩
      have h5 : remoteItem = item := by simpa using h3
      rw [h5] at hst
      exact hst h4

theorem sendTokens_cases (env : Env) (fuel : Nat) (trace : List Effect) (item : WorkItem)
    (config : MigrateConfig) :
    (sendTokens env fuel trace item config
        = (trace ++ [Effect.Migrate item (chainConfigOf config)], none)) ∨
    (∃ E err, sendTokens env fuel trace item config
        = (trace ++ [Effect.Migrate item (chainConfigOf config),
                     Effect.UpdateWorkItemAndSaveState
                       { item with Status := FAILED, Error := some E }],
           some (.error err))) ∨
    (∃ err, sendTokens env fuel trace item config
        = (trace ++ [Effect.Migrate item (chainConfigOf config)], some (.error err))) ∨
    (∃ txHash blockTime, sendTokens env fuel trace item config
        = (trace ++ [Effect.Migrate item (chainConfigOf config)],
           some (.ok (txHash, blockTime)))) := by
  cases h : Migrate env.chain fuel item (chainConfigOf config) with
  | none => exact Or.inl (sendTokens_of_none env fuel trace item config h)
  | some r =>
    cases r with
    | error E => exact Or.inr (Or.inl ⟨E, _, sendTokens_of_error env fuel trace item config E h⟩)
    | ok p =>
      obtain ⟨res, bt⟩ := p
      rw [sendTokens_of_ok env fuel trace item config res bt h]
      by_cases hc : res.Code = 0
      · exact Or.inr (Or.inr (Or.inr ⟨some res.TxHash, bt, by simp [hc]⟩))
      · exact Or.inr (Or.inr (Or.inl ⟨GoError.migrationFailed res.RawLog, by simp [hc]⟩))

/-! ### Fuel: a result, once returned, does not depend on the fuel -/

theorem waitForBlockHeight_mono (env : ChainEnv) (height : Int) :
    ∀ (fuel : Nat) (c : RpcCalls) (r : Option String × RpcCalls),
      waitForBlockHeight env height fuel c = some r →
      ∀ fuel2, fuel ≤ fuel2 → waitForBlockHeight env height fuel2 c = some r := by
  intro fuel
  induction fuel with
  | zero =>
    intro c r h
    simp [waitForBlockHeight] at h
  | succ n ih =>
    intro c r h fuel2 hle
    obtain ⟨m, rfl⟩ : ∃ m, fuel2 = m + 1 := ⟨fuel2 - 1, by omega⟩
    have hnm : n ≤ m := by omega
    simp only [waitForBlockHeight] at h ⊢
    split
    · rename_i hsel
      simp only [hsel, if_true] at h
      split
      · rename_i err c2 hg
        simp only [hg] at h
        exact h
      · rename_i latestHeight c2 hg
        simp only [hg] at h
        split
        · rename_i hh
          simp only [hh, if_true] at h
          exact h
        · rename_i hh
          simp only [hh, if_false] at h
          exact ih _ _ h m hnm
    · rename_i hsel
      simp only [hsel] at h
      exact h

theorem waitForNextBlock_mono (env : ChainEnv) (fuel : Nat) (c : RpcCalls)
    (r : Option String × RpcCalls) (h : waitForNextBlock env fuel c = some r)
    (fuel2 : Nat) (hle : fuel ≤ fuel2) : waitForNextBlock env fuel2 c = some r := by
  simp only [waitForNextBlock] at h ⊢
  split
  · rename_i err c1 hg
    simp only [hg] at h
    exact h
  · rename_i latestHeight c1 hg
    simp only [hg] at h
    exact waitForBlockHeight_mono env _ fuel _ r h fuel2 hle

theorem waitForTxLoop_mono (env : ChainEnv) (bHash : List (Fin 256)) :
    ∀ (fuel : Nat) (c : RpcCalls) (r : Except String ResultTx × RpcCalls),
      waitForTxLoop env bHash fuel c = some r →
      ∀ fuel2, fuel ≤ fuel2 → waitForTxLoop env bHash fuel2 c = some r := by
  intro fuel
  induction fuel with
  | zero =>
    intro c r h
    simp [waitForTxLoop] at h
  | succ n ih =>
    intro c r h fuel2 hle
    obtain ⟨m, rfl⟩ : ∃ m, fuel2 = m + 1 := ⟨fuel2 - 1, by omega⟩
    have hnm : n ≤ m := by omega
    simp only [waitForTxLoop] at h ⊢
    cases htx : env.Tx c.tx bHash with
    | ok res =>
      simp only [htx] at h ⊢
      exact h
    | error err =>
      simp only [htx] at h ⊢
      by_cases hnf : stringsContains err "not found" = true
      · simp only [hnf, if_true] at h ⊢
        cases hw : waitForNextBlock env n { c with tx := c.tx + 1 } with
        | none => simp [hw] at h
        | some p =>
          have hw2 := waitForNextBlock_mono env n _ p hw m hnm
          rw [hw] at h
          rw [hw2]
          obtain ⟨e, c2⟩ := p
          cases e with
          | some err2 => exact h
          | none => exact ih _ _ h m hnm
      · simp only [hnf] at h ⊢
        exact h

theorem waitForTx_mono (env : ChainEnv) (hash : String) (fuel : Nat) (c : RpcCalls)
    (r : Except String ResultTx × RpcCalls) (h : waitForTx env hash fuel c = some r)
    (fuel2 : Nat) (hle : fuel ≤ fuel2) : waitForTx env hash fuel2 c = some r := by
  simp only [waitForTx] at h ⊢
  cases hd : env.DecodeString hash with
  | error err =>
    simp only [hd] at h ⊢
    exact h
  | ok bHash =>
    simp only [hd] at h ⊢
    exact waitForTxLoop_mono env bHash fuel c r h fuel2 hle

theorem signAndBroadcast_mono (env : ChainEnv) (fuel : Nat) (ctx : Context)
    (txBuilder : TxBuilder) (bankAccount : String) (info : KeyRecord)
    (r : Except String (TxResponse × Option Time))
    (h : signAndBroadcast env fuel ctx txBuilder bankAccount info = some r)
    (fuel2 : Nat) (hle : fuel ≤ fuel2) :
    signAndBroadcast env fuel2 ctx txBuilder bankAccount info = some r := by
  simp only [signAndBroadcast, beq_self_eq_true, Bool.or_self, if_true] at h ⊢
  cases h1 : env.GetAddress info with
  | error err => simp only [h1] at h ⊢; exact h
  | ok addr =>
    simp only [h1] at h ⊢
    cases h2 : env.GetAccountNumberSequence addr with
    | error err => simp only [h2] at h ⊢; exact h
    | ok p =>
      obtain ⟨accNum, seqNum⟩ := p
      simp only [h2] at h ⊢
      cases h3 : env.Sign { ChainID := ctx.ChainID, Gas := 300000, AccountNumber := accNum,
                            Sequence := seqNum } bankAccount txBuilder with
      | some err => simp only [h3] at h ⊢; exact h
      | none =>
        simp only [h3] at h ⊢
        cases h4 : env.TxEncoder txBuilder with
        | error err => simp only [h4] at h ⊢; exact h
        | ok txBytes =>
          simp only [h4] at h ⊢
          cases h5 : env.BroadcastTx txBytes with
          | error err => simp only [h5] at h ⊢; exact h
          | ok res =>
            simp only [h5] at h ⊢
            cases h6 : waitForTx env res.TxHash fuel { tx := 0, status := 0, selects := 0 } with
            | none => simp [h6] at h
            | some p =>
              rw [waitForTx_mono env res.TxHash fuel _ p h6 fuel2 hle]
              rw [h6] at h
              exact h

theorem Migrate_mono (env : ChainEnv) (fuel : Nat) (item : WorkItem) (cfg : MigrationConfig)
    (r : Except String (TxResponse × Option Time))
    (h : Migrate env fuel item cfg = some r) (fuel2 : Nat) (hle : fuel ≤ fuel2) :
    Migrate env fuel2 item cfg = some r := by
  simp only [Migrate] at h ⊢
  cases h1 : newClientContext env cfg.ChainID cfg.NodeAddress cfg.KeyringBackend
      cfg.ChainHome with
  | error err => simp only [h1] at h ⊢; exact h
  | ok ctx =>
    simp only [h1] at h ⊢
    cases h2 : getAccountInfo env ctx cfg.BankAddress with
    | error err => simp only [h2] at h ⊢; exact h
    | ok p =>
      obtain ⟨addr, info⟩ := p
      simp only [h2] at h ⊢
      cases h3 : env.AccAddressFromBech32 item.ManifestAddress with
      | error err => simp only [h3] at h ⊢; exact h
      | ok manifestAddr =>
        simp only [h3] at h ⊢
        cases h4 : prepareTx env ctx
            { FromAddress := addr, ToAddress := manifestAddr,
              Amount := NewCoins [{ Denom := cfg.Denom, Amount := cfg.Amount }] }
            item.UUID.String cfg.Denom with
        | error err => simp only [h4] at h ⊢; exact h
        | ok txBuilder =>
          simp only [h4] at h ⊢
          cases h5 : signAndBroadcast env fuel ctx txBuilder cfg.BankAddress info with
          | none => simp [h5] at h
          | some q =>
            rw [signAndBroadcast_mono env fuel ctx txBuilder cfg.BankAddress info q h5 fuel2 hle]
            rw [h5] at h
            exact h

theorem sendTokens_mono (env : Env) (fuel : Nat) (trace : List Effect) (item : WorkItem)
    (config : MigrateConfig)
    (h : (sendTokens env fuel trace item config).2 ≠ none)
    (fuel2 : Nat) (hle : fuel ≤ fuel2) :
    sendTokens env fuel2 trace item config = sendTokens env fuel trace item config := by
  cases hM : Migrate env.chain fuel item (chainConfigOf config) with
  | none =>
    rw [sendTokens_of_none env fuel trace item config hM] at h
    exact absurd rfl h
  | some q =>
    have hM2 := Migrate_mono env.chain fuel item (chainConfigOf config) q hM fuel2 hle
    cases q with
    | error E =>
      rw [sendTokens_of_error env fuel trace item config E hM,
        sendTokens_of_error env fuel2 trace item config E hM2]
    | ok p =>
      obtain ⟨res, bt⟩ := p
      rw [sendTokens_of_ok env fuel trace item config res bt hM,
        sendTokens_of_ok env fuel2 trace item config res bt hM2]

theorem migrate_mono (env : Env) (fuel : Nat) (item : WorkItem) (config : MigrateConfig)
    (r : Option GoError) (h : (migrate env fuel item config).result = some r)
    (fuel2 : Nat) (hle : fuel ≤ fuel2) :
    migrate env fuel2 item config = migrate env fuel item config := by
  simp only [migrate] at h ⊢
  cases hget : env.GetWorkItem item.UUID with
  | error err => rfl
  | ok remoteItem =>
    simp only [hget] at h ⊢
    cases hv : verifyItemStatus remoteItem with
    | some err => rfl
    | none =>
      simp only [hv] at h ⊢
      cases hc : compareItems item remoteItem with
      | some err => rfl
      | none =>
        simp only [hc] at h ⊢
        generalize (if (item.Status != MIGRATING) = true
          then setAsMigrating env [Effect.GetWorkItem item.UUID] item
          else ([Effect.GetWorkItem item.UUID], none)) = mig at h ⊢
        obtain ⟨t2, e⟩ := mig
        cases e with
        | some err => rfl
        | none =>
          simp only at h ⊢
          have hne : (sendTokens env fuel t2 item config).2 ≠ none := by
            intro hn
            cases hs : sendTokens env fuel t2 item config with
            | mk t3 r3 =>
              rw [hs] at hn h
              simp only at hn
              subst hn
              simp at h
          rw [sendTokens_mono env fuel t2 item config hne fuel2 hle]

/-- C4. What the code does when the broadcast answers a non-zero code: for an
eligible, matching work item, when `chain.Migrate` returns a response with a non-zero
code and raw log `L`, `migrate` stops at the ledger send and returns the error
"migration failed: L"; it pushes no record with status FAILED, where the claim asks
for a FAILED update whose error text contains `L`. -/
theorem migrate_nonzero_code_no_failed_update (env : Env) (fuel : Nat)
    (item remoteItem : WorkItem) (config : MigrateConfig) (res : TxResponse)
    (blockTime : Option Time)
    (hget : env.GetWorkItem item.UUID = .ok remoteItem)
    (hst : remoteItem.Status = CLAIMED ∨ remoteItem.Status = MIGRATING)
    (heq : item.Equal remoteItem = true)
    (hmig : item.Status ≠ MIGRATING →
      env.UpdateWorkItemAndSaveState [Effect.GetWorkItem item.UUID]
        { item with Status := MIGRATING } = none)
    (hsend : Migrate env.chain fuel item (chainConfigOf config) = some (.ok (res, blockTime)))
    (hcode : res.Code ≠ 0) (fuel2 : Nat) (hle : fuel ≤ fuel2) :
    migrate env fuel2 item config
      = { trace := tracePrefix item ++ [Effect.Migrate item (chainConfigOf config)],
          result := some (some (GoError.migrationFailed res.RawLog)) } ∧
    (∀ w ∈ pushedItems (migrate env fuel2 item config).trace, w.Status ≠ FAILED) := by
  have hsend2 := Migrate_mono env.chain fuel item (chainConfigOf config) _ hsend fuel2 hle
  have hrun : migrate env fuel2 item config
      = { trace := tracePrefix item ++ [Effect.Migrate item (chainConfigOf config)],
          result := some (some (GoError.migrationFailed res.RawLog)) } := by
    rw [migrate_after_verification env fuel2 item remoteItem config hget hst heq hmig,
      sendTokens_of_ok env fuel2 _ item config res blockTime hsend2]
    simp [hcode]
  refine ⟨hrun, ?_⟩
  rw [hrun]
  intro w hw
  by_cases hm : item.Status = MIGRATING
  · simp [pushedItems, tracePrefix, hm] at hw
  · simp [pushedItems, tracePrefix, hm] at hw
    rw [hw]
    exact (by decide : MIGRATING ≠ FAILED)

/-- C4, at a claimed item whose broadcast answers code 5 with the log
"insufficient funds": the run ends at the ledger send, the only record pushed is the
MIGRATING one. -/
theorem migrate_nonzero_code_no_failed_update_witness :
    migrate rejectedEnv 3 sampleItem sampleConfig
      = { trace := tracePrefix sampleItem ++
            [Effect.Migrate sampleItem (chainConfigOf sampleConfig)],
          result := some (some (GoError.migrationFailed "insufficient funds")) } ∧
    (∀ w ∈ pushedItems (migrate rejectedEnv 3 sampleItem sampleConfig).trace,
      w.Status ≠ FAILED) :=
  migrate_nonzero_code_no_failed_update rejectedEnv 1 sampleItem sampleItem sampleConfig
    { Code := 5, TxHash := "ABCD", RawLog := "insufficient funds" }
    (some { unixNano := 1704067200000000000 })
    rfl (Or.inl rfl) (by decide) (fun _ => rfl) rfl (by decide) 3 (by decide)

/-- C6, as stated, fails: `chain.Migrate` fails with the error `E` of the keyring, the
FAILED update fails with "registry unreachable", and `sendTokens`, and with it
`migrate`, returns the error of the update, not `E`. -/
theorem sendTokens_update_error_counterexample :
    Migrate brokenEnv.chain 1 sampleItem (chainConfigOf sampleConfig)
      = some (.error "failed to set up client context: failed to create keyring: keyring locked") ∧
    sendTokens brokenEnv 1 [] sampleItem sampleConfig
      = ([Effect.Migrate sampleItem (chainConfigOf sampleConfig),
          Effect.UpdateWorkItemAndSaveState
            { sampleItem with
              Status := FAILED,
              Error := some "failed to set up client context: failed to create keyring: keyring locked" }],
         some (.error (GoError.text "registry unreachable"))) ∧
    (migrate brokenEnv 1 sampleItem sampleConfig).result
      = some (some (GoError.text "registry unreachable")) ∧
    GoError.text "registry unreachable"
      ≠ GoError.text "failed to set up client context: failed to create keyring: keyring locked" := by
  refine ⟨rfl, rfl, by decide, by decide⟩

/-- C6, amended. When `chain.Migrate` fails with error `E`, `sendTokens` attempts a
FAILED update carrying the text of `E`; when that update succeeds it returns `E`
itself, and when that update fails it returns the error of the update. For an
eligible, matching work item `migrate` returns what `sendTokens` returns. -/
theorem sendTokens_transfer_error (env : Env) (fuel : Nat) (trace : List Effect)
    (item : WorkItem) (config : MigrateConfig) (E : String)
    (h : Migrate env.chain fuel item (chainConfigOf config) = some (.error E))
    (fuel2 : Nat) (hle : fuel ≤ fuel2) :
    (sendTokens env fuel2 trace item config).1
      = trace ++ [Effect.Migrate item (chainConfigOf config),
                  Effect.UpdateWorkItemAndSaveState
                    { item with Status := FAILED, Error := some E }] ∧
    (env.UpdateWorkItemAndSaveState (trace ++ [Effect.Migrate item (chainConfigOf config)])
        { item with Status := FAILED, Error := some E } = none →
      (sendTokens env fuel2 trace item config).2 = some (.error (GoError.text E))) ∧
    (∀ fErr,
      env.UpdateWorkItemAndSaveState (trace ++ [Effect.Migrate item (chainConfigOf config)])
        { item with Status := FAILED, Error := some E } = some fErr →
      (sendTokens env fuel2 trace item config).2 = some (.error fErr)) ∧
    (∀ remoteItem err,
      env.GetWorkItem item.UUID = .ok remoteItem →
      (remoteItem.Status = CLAIMED ∨ remoteItem.Status = MIGRATING) →
      item.Equal remoteItem = true →
      (item.Status ≠ MIGRATING →
        env.UpdateWorkItemAndSaveState [Effect.GetWorkItem item.UUID]
          { item with Status := MIGRATING } = none) →
      (sendTokens env fuel2 (tracePrefix item) item config).2 = some (.error err) →
      (migrate env fuel2 item config).result = some (some err)) := by
  have h2 := Migrate_mono env.chain fuel item (chainConfigOf config) _ h fuel2 hle
  refine ⟨?_, ?_, ?_, ?_⟩
  · rw [sendTokens_of_error env fuel2 trace item config E h2]
  · intro hu
    rw [sendTokens_of_error env fuel2 trace item config E h2]
    simp only [hu]
  · intro fErr hu
    rw [sendTokens_of_error env fuel2 trace item config E h2]
    simp only [hu]
  · intro remoteItem err hget hst heq hmig hs
    rw [migrate_after_verification env fuel2 item remoteItem config hget hst heq hmig]
    rw [sendTokens_of_error env fuel2 _ item config E h2] at hs ⊢
    simp only at hs ⊢
    simp only [Option.some.injEq, Except.error.injEq] at hs
    rw [hs]

/-- C6, amended, at a keyring that cannot be opened: with a registry that accepts the
FAILED update the error returned is that of the keyring, with a registry that refuses
it the error returned is that of the registry. -/
theorem sendTokens_transfer_error_witness :
    (sendTokens lockedEnv 2 (tracePrefix sampleItem) sampleItem sampleConfig).2
      = some (.error (GoError.text
          "failed to set up client context: failed to create keyring: keyring locked")) ∧
    (sendTokens brokenEnv 2 (tracePrefix sampleItem) sampleItem sampleConfig).2
      = some (.error (GoError.text "registry unreachable")) ∧
    (migrate brokenEnv 2 sampleItem sampleConfig).result
      = some (some (GoError.text "registry unreachable")) :=
  ⟨(sendTokens_transfer_error lockedEnv 0 (tracePrefix sampleItem) sampleItem sampleConfig
      "failed to set up client context: failed to create keyring: keyring locked" rfl
      2 (by decide)).2.1 rfl,
   (sendTokens_transfer_error brokenEnv 0 (tracePrefix sampleItem) sampleItem sampleConfig
      "failed to set up client context: failed to create keyring: keyring locked" rfl
      2 (by decide)).2.2.1
      (GoError.text "registry unreachable") rfl,
   (sendTokens_transfer_error brokenEnv 0 (tracePrefix sampleItem) sampleItem sampleConfig
      "failed to set up client context: failed to create keyring: keyring locked" rfl
      2 (by decide)).2.2.2
      sampleItem (GoError.text "registry unreachable") rfl (Or.inl rfl) (by decide)
      (fun _ => rfl) rfl⟩

/-- C7. For a work item with status CLAIMED whose registry copy is equal to it, when
every update and the deletion of the local state succeed and the ledger send returns
code 0 with hash `H` and block time `T`, `migrate` makes these calls, in this order:
the registry read, the MIGRATING update, the ledger send, the COMPLETED update with
`ManifestHash = H` and `ManifestDatetime = T`, the deletion of the local state; it
returns no error. The two updates are the only ones. -/
theorem migrate_claimed_success (env : Env) (fuel : Nat) (item remoteItem : WorkItem)
    (config : MigrateConfig) (res : TxResponse) (T : Time)
    (hst : item.Status = CLAIMED)
    (hget : env.GetWorkItem item.UUID = .ok remoteItem)
    (heq : item.Equal remoteItem = true)
    (hupd : ∀ t w, env.UpdateWorkItemAndSaveState t w = none)
    (hrm : ∀ t n, env.Remove t n = none)
    (hsend : Migrate env.chain fuel item (chainConfigOf config) = some (.ok (res, some T)))
    (hcode : res.Code = 0) (fuel2 : Nat) (hle : fuel ≤ fuel2) :
    migrate env fuel2 item config
      = { trace :=
            [Effect.GetWorkItem item.UUID,
             Effect.UpdateWorkItemAndSaveState { item with Status := MIGRATING },
             Effect.Migrate item (chainConfigOf config),
             Effect.UpdateWorkItemAndSaveState
               { item with Status := COMPLETED, ManifestHash := some res.TxHash,
                           ManifestDatetime := some T },
             Effect.Remove (item.UUID.String ++ ".json")],
          result := some none } ∧
    pushedItems (migrate env fuel2 item config).trace
      = [{ item with Status := MIGRATING },
         { item with Status := COMPLETED, ManifestHash := some res.TxHash,
                     ManifestDatetime := some T }] := by
  have hrem : remoteItem = item := ((Equal_iff_eq item remoteItem).mp heq).symm
  subst hrem
  have hm : ¬ remoteItem.Status = MIGRATING := by rw [hst]; decide
  have hsend2 := Migrate_mono env.chain fuel remoteItem (chainConfigOf config) _ hsend fuel2 hle
  have hrun := migrate_after_verification env fuel2 remoteItem remoteItem config hget
    (Or.inl hst) heq (fun _ => hupd _ _)
  rw [sendTokens_of_ok env fuel2 _ remoteItem config res (some T) hsend2] at hrun
  simp only [hcode, if_true, hupd, hrm, tracePrefix, hm, if_false] at hrun
  rw [hrun]
  simp [pushedItems]

/-- C7, at the claimed sample item: hash ABCD, block time 2024-01-01T00:00:00.000Z. -/
theorem migrate_claimed_success_witness :
    migrate sampleEnv 4 sampleItem sampleConfig
      = { trace :=
            [Effect.GetWorkItem sampleItem.UUID,
             Effect.UpdateWorkItemAndSaveState { sampleItem with Status := MIGRATING },
             Effect.Migrate sampleItem (chainConfigOf sampleConfig),
             Effect.UpdateWorkItemAndSaveState
               { sampleItem with Status := COMPLETED, ManifestHash := some "ABCD",
                                 ManifestDatetime := some { unixNano := 1704067200000000000 } },
             Effect.Remove (sampleItem.UUID.String ++ ".json")],
          result := some none } ∧
    pushedItems (migrate sampleEnv 4 sampleItem sampleConfig).trace
      = [{ sampleItem with Status := MIGRATING },
         { sampleItem with Status := COMPLETED, ManifestHash := some "ABCD",
                           ManifestDatetime := some { unixNano := 1704067200000000000 } }] :=
  migrate_claimed_success sampleEnv 1 sampleItem sampleItem sampleConfig
    { Code := 0, TxHash := "ABCD", RawLog := "" } { unixNano := 1704067200000000000 }
    rfl rfl (by decide) (fun _ _ => rfl) (fun _ _ => rfl) rfl rfl 4 (by decide)

/-- C8. For a work item whose local and registry copies are equal and already have
status MIGRATING, the call that follows the registry read is the ledger send, and
every record `migrate` pushes has status COMPLETED or FAILED: it pushes no MIGRATING
update. -/
theorem migrate_resumes_at_ledger_send (env : Env) (fuel : Nat) (item remoteItem : WorkItem)
    (config : MigrateConfig)
    (hst : item.Status = MIGRATING)
    (hget : env.GetWorkItem item.UUID = .ok remoteItem)
    (heq : item.Equal remoteItem = true) :
    (∃ rest, (migrate env fuel item config).trace
        = [Effect.GetWorkItem item.UUID, Effect.Migrate item (chainConfigOf config)] ++ rest) ∧
    (∀ w ∈ pushedItems (migrate env fuel item config).trace,
      w.Status = COMPLETED ∨ w.Status = FAILED) ∧
    (∀ w ∈ pushedItems (migrate env fuel item config).trace, w.Status ≠ MIGRATING) := by
  have hrem : remoteItem = item := ((Equal_iff_eq item remoteItem).mp heq).symm
  subst hrem
  have hrun := migrate_after_verification env fuel remoteItem remoteItem config hget
    (Or.inr hst) heq (fun h => absurd hst h)
  have hpre : tracePrefix remoteItem = [Effect.GetWorkItem remoteItem.UUID] := by
    simp [tracePrefix, hst]
  rw [hpre] at hrun
  have main : (∃ rest, (migrate env fuel remoteItem config).trace
        = [Effect.GetWorkItem remoteItem.UUID,
           Effect.Migrate remoteItem (chainConfigOf config)] ++ rest) ∧
      (∀ w ∈ pushedItems (migrate env fuel remoteItem config).trace,
        w.Status = COMPLETED ∨ w.Status = FAILED) := by
    rcases sendTokens_cases env fuel [Effect.GetWorkItem remoteItem.UUID] remoteItem config
      with h | ⟨E, err, h⟩ | ⟨err, h⟩ | ⟨txHash, blockTime, h⟩
    · rw [h] at hrun
      rw [hrun]
      exact ⟨⟨[], by simp⟩, by simp [pushedItems]⟩
    · rw [h] at hrun
      rw [hrun]
      refine ⟨⟨_, by simp; rfl⟩, ?_⟩
      intro w hw
      simp [pushedItems] at hw
      rw [hw]
      exact Or.inr rfl
    · rw [h] at hrun
      rw [hrun]
      exact ⟨⟨[], by simp⟩, by simp [pushedItems]⟩
    · rw [h] at hrun
      simp only at hrun
      cases hu : env.UpdateWorkItemAndSaveState
          ([Effect.GetWorkItem remoteItem.UUID] ++
            [Effect.Migrate remoteItem (chainConfigOf config)])
          { remoteItem with Status := COMPLETED, ManifestHash := txHash,
                            ManifestDatetime := blockTime } with
      | some err =>
        rw [hu] at hrun
        rw [hrun]
        refine ⟨⟨_, by simp; rfl⟩, ?_⟩
        intro w hw
        simp [pushedItems] at hw
        rw [hw]
        exact Or.inl rfl
      | none =>
        rw [hu] at hrun
        rw [hrun]
        refine ⟨⟨_, by simp; rfl⟩, ?_⟩
        intro w hw
        simp [pushedItems] at hw
        rw [hw]
        exact Or.inl rfl
  refine ⟨main.1, main.2, ?_⟩
  intro w hw
  rcases main.2 w hw with h | h
  · rw [h]
    exact (by decide : COMPLETED ≠ MIGRATING)
  · rw [h]
    exact (by decide : FAILED ≠ MIGRATING)

/-- C8, at the sample item with status MIGRATING: the run is the registry read, the
ledger send, the COMPLETED update and the deletion. -/
theorem migrate_resumes_at_ledger_send_witness :
    (∃ rest, (migrate resumedEnv 1 migratingItem sampleConfig).trace
        = [Effect.GetWorkItem migratingItem.UUID,
           Effect.Migrate migratingItem (chainConfigOf sampleConfig)] ++ rest) ∧
    (∀ w ∈ pushedItems (migrate resumedEnv 1 migratingItem sampleConfig).trace,
      w.Status = COMPLETED ∨ w.Status = FAILED) ∧
    (∀ w ∈ pushedItems (migrate resumedEnv 1 migratingItem sampleConfig).trace,
      w.Status ≠ MIGRATING) :=
  migrate_resumes_at_ledger_send resumedEnv 1 migratingItem migratingItem sampleConfig
    rfl rfl (by decide)

theorem tracePrefix_no_remove (item : WorkItem) (n : String) :
    Effect.Remove n ∉ tracePrefix item := by
  by_cases hm : item.Status = MIGRATING <;> simp [tracePrefix, hm]

theorem remove_mem_trace (env : Env) (fuel : Nat) (item : WorkItem) (config : MigrateConfig)
    (name : String) (hmem : Effect.Remove name ∈ (migrate env fuel item config).trace) :
    ∃ txHash blockTime,
      name = item.UUID.String ++ ".json" ∧
      env.GetWorkItem item.UUID = .ok item ∧
      (item.Status = CLAIMED ∨ item.Status = MIGRATING) ∧
      (item.Status ≠ MIGRATING →
        env.UpdateWorkItemAndSaveState [Effect.GetWorkItem item.UUID]
          { item with Status := MIGRATING } = none) ∧
      sendTokens env fuel (tracePrefix item) item config
        = (tracePrefix item ++ [Effect.Migrate item (chainConfigOf config)],
           some (.ok (txHash, blockTime))) ∧
      env.UpdateWorkItemAndSaveState
        (tracePrefix item ++ [Effect.Migrate item (chainConfigOf config)])
        { item with Status := COMPLETED, ManifestHash := txHash,
                    ManifestDatetime := blockTime } = none ∧
      migrate env fuel item config
        = { trace := (tracePrefix item ++ [Effect.Migrate item (chainConfigOf config)]) ++
              [Effect.UpdateWorkItemAndSaveState
                 { item with Status := COMPLETED, ManifestHash := txHash,
                             ManifestDatetime := blockTime },
               Effect.Remove name],
            result := some (env.Remove
              ((tracePrefix item ++ [Effect.Migrate item (chainConfigOf config)]) ++
                [Effect.UpdateWorkItemAndSaveState
                   { item with Status := COMPLETED, ManifestHash := txHash,
                               ManifestDatetime := blockTime }])
              name) } := by
  have hp := tracePrefix_no_remove item name
  rcases migrate_cases env fuel item config with ⟨err, hrun, -⟩ | ⟨err, hrun, -, -⟩ |
    ⟨hget, hst, hmig⟩
  · rw [hrun] at hmem
    simp at hmem
  · rw [hrun] at hmem
    exact absurd hmem hp
  · have hrun := migrate_after_verification env fuel item item config hget hst
      ((Equal_iff_eq item item).mpr rfl) hmig
    rcases sendTokens_cases env fuel (tracePrefix item) item config
      with h | ⟨E, err, h⟩ | ⟨err, h⟩ | ⟨txHash, blockTime, h⟩
    · rw [h] at hrun
      rw [hrun] at hmem
      simp [hp] at hmem
    · rw [h] at hrun
      rw [hrun] at hmem
      simp [hp] at hmem
    · rw [h] at hrun
      rw [hrun] at hmem
      simp [hp] at hmem
    · rw [h] at hrun
      simp only at hrun
      cases hu : env.UpdateWorkItemAndSaveState
          (tracePrefix item ++ [Effect.Migrate item (chainConfigOf config)])
          { item with Status := COMPLETED, ManifestHash := txHash,
                      ManifestDatetime := blockTime } with
      | some err =>
        rw [hu] at hrun
        rw [hrun] at hmem
        simp [hp] at hmem
      | none =>
        rw [hu] at hrun
        have hname : name = item.UUID.String ++ ".json" := by
          rw [hrun] at hmem
          simpa [hp] using hmem
        subst hname
        exact ⟨txHash, blockTime, rfl, hget, hst, hmig, h, hu, hrun⟩

/-- C9. In every run of `migrate`, a deletion of the local state is the last call of
the run and directly follows a COMPLETED update that succeeded; the registry read
returned the item, with an eligible status, the MIGRATING update (if any) succeeded
and the ledger send returned a result; the only error such a run can return is that of
the deletion. Hence on every path where the verification, the MIGRATING update, the
ledger send or the COMPLETED update fails, the local state is not deleted. -/
theorem deleteState_only_after_completed (env : Env) (fuel : Nat) (item : WorkItem)
    (config : MigrateConfig) :
    (∀ name, Effect.Remove name ∈ (migrate env fuel item config).trace →
      ∃ pre txHash blockTime,
        (migrate env fuel item config).trace
          = pre ++ [Effect.UpdateWorkItemAndSaveState
                      { item with Status := COMPLETED, ManifestHash := txHash,
                                  ManifestDatetime := blockTime },
                    Effect.Remove name] ∧
        (∀ n, Effect.Remove n ∉ pre) ∧
        env.UpdateWorkItemAndSaveState pre
          { item with Status := COMPLETED, ManifestHash := txHash,
                      ManifestDatetime := blockTime } = none ∧
        (migrate env fuel item config).result
          = some (env.Remove
              (pre ++ [Effect.UpdateWorkItemAndSaveState
                { item with Status := COMPLETED, ManifestHash := txHash,
                            ManifestDatetime := blockTime }]) name)) ∧
    (¬ (env.GetWorkItem item.UUID = .ok item ∧
          (item.Status = CLAIMED ∨ item.Status = MIGRATING)) →
      ∀ n, Effect.Remove n ∉ (migrate env fuel item config).trace) ∧
    (∀ err, item.Status ≠ MIGRATING →
      env.UpdateWorkItemAndSaveState [Effect.GetWorkItem item.UUID]
        { item with Status := MIGRATING } = some err →
      ∀ n, Effect.Remove n ∉ (migrate env fuel item config).trace) ∧
    ((∀ txHash blockTime, (sendTokens env fuel (tracePrefix item) item config).2
        ≠ some (.ok (txHash, blockTime))) →
      ∀ n, Effect.Remove n ∉ (migrate env fuel item config).trace) ∧
    (∀ txHash blockTime err,
      (sendTokens env fuel (tracePrefix item) item config).2 = some (.ok (txHash, blockTime)) →
      env.UpdateWorkItemAndSaveState (sendTokens env fuel (tracePrefix item) item config).1
        { item with Status := COMPLETED, ManifestHash := txHash,
                    ManifestDatetime := blockTime } = some err →
      ∀ n, Effect.Remove n ∉ (migrate env fuel item config).trace) := by
  refine ⟨?_, ?_, ?_, ?_, ?_⟩
  · intro name hmem
    obtain ⟨txHash, blockTime, -, -, -, -, -, hu, hrun⟩ :=
      remove_mem_trace env fuel item config name hmem
    refine ⟨tracePrefix item ++ [Effect.Migrate item (chainConfigOf config)], txHash,
      blockTime, by rw [hrun], ?_, hu, by rw [hrun]⟩
    intro n
    simp [tracePrefix_no_remove item n]
  · intro hbad n hmem
    obtain ⟨_, _, -, hget, hst, -⟩ := remove_mem_trace env fuel item config n hmem
    exact hbad ⟨hget, hst⟩
  · intro err hm hu n hmem
    obtain ⟨_, _, -, -, -, hmig, -⟩ := remove_mem_trace env fuel item config n hmem
    rw [hmig hm] at hu
    exact Option.noConfusion hu
  · intro hbad n hmem
    obtain ⟨txHash, blockTime, -, -, -, -, hs, -⟩ :=
      remove_mem_trace env fuel item config n hmem
    exact hbad txHash blockTime (by rw [hs])
  · intro txHash blockTime err hs hu n hmem
    obtain ⟨txHash2, blockTime2, -, -, -, -, hs2, hu2, -⟩ :=
      remove_mem_trace env fuel item config n hmem
    rw [hs2] at hs hu
    simp only [Option.some.injEq, Except.ok.injEq, Prod.mk.injEq] at hs
    obtain ⟨h1, h2⟩ := hs
    subst h1 h2
    simp only at hu
    rw [hu2] at hu
    exact Option.noConfusion hu

/-- C9, at a run that completes (the deletion follows the COMPLETED update), and at
runs where the registry read, the MIGRATING update, the ledger send and the COMPLETED
update fail (no deletion). -/
theorem deleteState_only_after_completed_witness :
    (∃ pre txHash blockTime,
        (migrate sampleEnv 1 sampleItem sampleConfig).trace
          = pre ++ [Effect.UpdateWorkItemAndSaveState
                      { sampleItem with Status := COMPLETED, ManifestHash := txHash,
                                        ManifestDatetime := blockTime },
                    Effect.Remove "00010203-0405-0607-0809-0a0b0c0d0e0f.json"] ∧
        (∀ n, Effect.Remove n ∉ pre) ∧
        sampleEnv.UpdateWorkItemAndSaveState pre
          { sampleItem with Status := COMPLETED, ManifestHash := txHash,
                            ManifestDatetime := blockTime } = none ∧
        (migrate sampleEnv 1 sampleItem sampleConfig).result
          = some (sampleEnv.Remove
              (pre ++ [Effect.UpdateWorkItemAndSaveState
                { sampleItem with Status := COMPLETED, ManifestHash := txHash,
                                  ManifestDatetime := blockTime }])
              "00010203-0405-0607-0809-0a0b0c0d0e0f.json")) ∧
    (∀ n, Effect.Remove n ∉ (migrate unreachableEnv 1 sampleItem sampleConfig).trace) ∧
    (∀ n, Effect.Remove n ∉ (migrate refusingEnv 1 sampleItem sampleConfig).trace) ∧
    (∀ n, Effect.Remove n ∉ (migrate lockedEnv 1 sampleItem sampleConfig).trace) ∧
    (∀ n, Effect.Remove n ∉ (migrate lateRefusingEnv 1 sampleItem sampleConfig).trace) :=
  ⟨(deleteState_only_after_completed sampleEnv 1 sampleItem sampleConfig).1
      "00010203-0405-0607-0809-0a0b0c0d0e0f.json" (by decide),
   (deleteState_only_after_completed unreachableEnv 1 sampleItem sampleConfig).2.1
      (fun h => Except.noConfusion h.1),
   (deleteState_only_after_completed refusingEnv 1 sampleItem sampleConfig).2.2.1
      (GoError.text "registry unreachable") (by decide) rfl,
   (deleteState_only_after_completed lockedEnv 1 sampleItem sampleConfig).2.2.2.1
      (fun _ _ h => by
        have h2 : (sendTokens lockedEnv 1 (tracePrefix sampleItem) sampleItem sampleConfig).2
            = some (.error (GoError.text
                "failed to set up client context: failed to create keyring: keyring locked")) :=
          rfl
        rw [h2] at h
        exact Except.noConfusion (Option.some.inj h)),
   (deleteState_only_after_completed lateRefusingEnv 1 sampleItem sampleConfig).2.2.2.2
      (some "ABCD") (some { unixNano := 1704067200000000000 })
      (GoError.text "registry unreachable") rfl rfl⟩

/-- C10. The record `setAsFailed` pushes is the input with `Status` FAILED and `Error`
the given message; the record `setAsMigrating` pushes is the input with `Status`
MIGRATING; the record `setAsCompleted` pushes is the input with `Status` COMPLETED and
`ManifestHash` and `ManifestDatetime` the given values: every other field is that of
the input. Hence every record a run of `migrate` pushes is one of these three, with the
UUID, the hashes of origin, the address and the creation date of the item: its error
differs from that of the item only under status FAILED, its manifest hash and
datetime only under status COMPLETED. -/
theorem status_helpers_frame (env : Env) (trace : List Effect) (item : WorkItem)
    (errStr txHash : Option String) (blockTime : Option Time) (fuel : Nat)
    (config : MigrateConfig) :
    (setAsFailed env trace item errStr).1
      = trace ++ [Effect.UpdateWorkItemAndSaveState
          { Status := FAILED, CreatedDate := item.CreatedDate, UUID := item.UUID,
            ManyHash := item.ManyHash, ManifestAddress := item.ManifestAddress,
            ManifestHash := item.ManifestHash, ManifestDatetime := item.ManifestDatetime,
            Error := errStr }] ∧
    (setAsMigrating env trace item).1
      = trace ++ [Effect.UpdateWorkItemAndSaveState
          { Status := MIGRATING, CreatedDate := item.CreatedDate, UUID := item.UUID,
            ManyHash := item.ManyHash, ManifestAddress := item.ManifestAddress,
            ManifestHash := item.ManifestHash, ManifestDatetime := item.ManifestDatetime,
            Error := item.Error }] ∧
    (setAsCompleted env trace item txHash blockTime).1
      = trace ++ [Effect.UpdateWorkItemAndSaveState
          { Status := COMPLETED, CreatedDate := item.CreatedDate, UUID := item.UUID,
            ManyHash := item.ManyHash, ManifestAddress := item.ManifestAddress,
            ManifestHash := txHash, ManifestDatetime := blockTime,
            Error := item.Error }] ∧
    (∀ w ∈ pushedItems (migrate env fuel item config).trace,
      (w = { item with Status := MIGRATING } ∨
        (∃ E, w = { item with Status := FAILED, Error := some E }) ∨
        (∃ H T, w = { item with Status := COMPLETED, ManifestHash := H,
                                ManifestDatetime := T })) ∧
      w.UUID = item.UUID ∧ w.ManyHash = item.ManyHash ∧
      w.ManifestAddress = item.ManifestAddress ∧ w.CreatedDate = item.CreatedDate ∧
      (w.Error ≠ item.Error → w.Status = FAILED) ∧
      (w.ManifestHash ≠ item.ManifestHash ∨ w.ManifestDatetime ≠ item.ManifestDatetime →
        w.Status = COMPLETED)) := by
  refine ⟨by rw [setAsFailed_eq], by rw [setAsMigrating_eq], by rw [setAsCompleted_eq], ?_⟩
  have shape : ∀ w ∈ pushedItems (migrate env fuel item config).trace,
      (w = { item with Status := MIGRATING } ∨
        (∃ E, w = { item with Status := FAILED, Error := some E }) ∨
        (∃ H T, w = { item with Status := COMPLETED, ManifestHash := H,
                                ManifestDatetime := T })) := by
    have hpre : ∀ w ∈ pushedItems (tracePrefix item), w = { item with Status := MIGRATING } := by
      intro w hw
      by_cases hm : item.Status = MIGRATING
      · simp [pushedItems, tracePrefix, hm] at hw
      · simpa [pushedItems, tracePrefix, hm] using hw
    have happ : ∀ (a b : List Effect), pushedItems (a ++ b) = pushedItems a ++ pushedItems b := by
      intro a b
      simp [pushedItems]
    intro w hw
    rcases migrate_cases env fuel item config with ⟨err, hrun, -⟩ | ⟨err, hrun, -, -⟩ |
      ⟨hget, hst, hmig⟩
    · rw [hrun] at hw
      simp [pushedItems] at hw
    · rw [hrun] at hw
      exact Or.inl (hpre w hw)
    · have hrun := migrate_after_verification env fuel item item config hget hst
        ((Equal_iff_eq item item).mpr rfl) hmig
      rcases sendTokens_cases env fuel (tracePrefix item) item config
        with h | ⟨E, err, h⟩ | ⟨err, h⟩ | ⟨txHash, blockTime, h⟩
      · rw [h] at hrun
        rw [hrun, happ] at hw
        simp only [List.mem_append] at hw
        rcases hw with hw | hw
        · exact Or.inl (hpre w hw)
        · simp [pushedItems] at hw
      · rw [h] at hrun
        rw [hrun, happ] at hw
        simp only [List.mem_append] at hw
        rcases hw with hw | hw
        · exact Or.inl (hpre w hw)
        · simp [pushedItems] at hw
          exact Or.inr (Or.inl ⟨E, hw⟩)
      · rw [h] at hrun
        rw [hrun, happ] at hw
        simp only [List.mem_append] at hw
        rcases hw with hw | hw
        · exact Or.inl (hpre w hw)
        · simp [pushedItems] at hw
      · rw [h] at hrun
        simp only at hrun
        cases hu : env.UpdateWorkItemAndSaveState
            (tracePrefix item ++ [Effect.Migrate item (chainConfigOf config)])
            { item with Status := COMPLETED, ManifestHash := txHash,
                        ManifestDatetime := blockTime } with
        | some err =>
          rw [hu] at hrun
          rw [hrun, happ, happ] at hw
          simp only [List.mem_append] at hw
          rcases hw with (hw | hw) | hw
          · exact Or.inl (hpre w hw)
          · simp [pushedItems] at hw
          · simp [pushedItems] at hw
            exact Or.inr (Or.inr ⟨txHash, blockTime, hw⟩)
        | none =>
          rw [hu] at hrun
          rw [hrun, happ, happ] at hw
          simp only [List.mem_append] at hw
          rcases hw with (hw | hw) | hw
          · exact Or.inl (hpre w hw)
          · simp [pushedItems] at hw
          · simp [pushedItems] at hw
            exact Or.inr (Or.inr ⟨txHash, blockTime, hw⟩)
  intro w hw
  refine ⟨shape w hw, ?_⟩
  rcases shape w hw with h | ⟨E, h⟩ | ⟨H, T, h⟩
  · subst h
    refine ⟨rfl, rfl, rfl, rfl, fun h => absurd rfl h, ?_⟩
    rintro (h | h) <;> exact absurd rfl h
  · subst h
    refine ⟨rfl, rfl, rfl, rfl, fun _ => rfl, ?_⟩
    rintro (h | h) <;> exact absurd rfl h
  · subst h
    exact ⟨rfl, rfl, rfl, rfl, fun h => absurd rfl h, fun _ => rfl⟩

/-- C10, at the COMPLETED record of the run that completes. -/
theorem status_helpers_frame_witness :
    ({ sampleItem with Status := COMPLETED, ManifestHash := some "ABCD",
                       ManifestDatetime := some { unixNano := 1704067200000000000 } } : WorkItem)
      ∈ pushedItems (migrate sampleEnv 1 sampleItem sampleConfig).trace ∧
    ({ sampleItem with Status := COMPLETED, ManifestHash := some "ABCD",
                       ManifestDatetime := some { unixNano := 1704067200000000000 } } : WorkItem).UUID
      = sampleItem.UUID ∧
    (setAsFailed sampleEnv [] sampleItem (some "x")).1
      = [Effect.UpdateWorkItemAndSaveState
          { Status := FAILED, CreatedDate := sampleItem.CreatedDate, UUID := sampleItem.UUID,
            ManyHash := sampleItem.ManyHash, ManifestAddress := sampleItem.ManifestAddress,
            ManifestHash := sampleItem.ManifestHash,
            ManifestDatetime := sampleItem.ManifestDatetime, Error := some "x" }] :=
  ⟨by decide,
   ((status_helpers_frame sampleEnv [] sampleItem (some "x") none none 1 sampleConfig).2.2.2
      { sampleItem with Status := COMPLETED, ManifestHash := some "ABCD",
                        ManifestDatetime := some { unixNano := 1704067200000000000 } }
      (by decide)).2.1,
   (status_helpers_frame sampleEnv [] sampleItem (some "x") none none 1 sampleConfig).1⟩

theorem Truncate_Millisecond_unixNano (t : Time) :
    ((t.UTC).Truncate Millisecond).unixNano = t.unixNano - t.unixNano % 1000000 := by
  simp only [Time.UTC, Time.Truncate, Millisecond, unixToInternalNanos]
  rw [if_neg (by decide)]
  show t.unixNano - (t.unixNano + 62135596800 * 1000000000) % 1000000
    = t.unixNano - t.unixNano % 1000000
  omega

theorem signAndBroadcast_ok_blockTime (env : ChainEnv) (fuel : Nat) (ctx : Context)
    (txBuilder : TxBuilder) (bankAccount : String) (info : KeyRecord) (res : TxResponse)
    (blockTime : Option Time)
    (h : signAndBroadcast env fuel ctx txBuilder bankAccount info = some (.ok (res, blockTime))) :
    ∃ txResult c t,
      waitForTx env res.TxHash fuel { tx := 0, status := 0, selects := 0 }
        = some (.ok txResult, c) ∧
      env.Block txResult.Height = .ok t ∧
      blockTime = some ((t.UTC).Truncate Millisecond) := by
  simp only [signAndBroadcast, beq_self_eq_true, Bool.or_self, if_true] at h
  cases h1 : env.GetAddress info with
  | error err => simp [h1] at h
  | ok addr =>
    simp only [h1] at h
    cases h2 : env.GetAccountNumberSequence addr with
    | error err => simp [h2] at h
    | ok p =>
      obtain ⟨accNum, seqNum⟩ := p
      simp only [h2] at h
      cases h3 : env.Sign { ChainID := ctx.ChainID, Gas := 300000, AccountNumber := accNum,
                            Sequence := seqNum } bankAccount txBuilder with
      | some err => simp [h3] at h
      | none =>
        simp only [h3] at h
        cases h4 : env.TxEncoder txBuilder with
        | error err => simp [h4] at h
        | ok txBytes =>
          simp only [h4] at h
          cases h5 : env.BroadcastTx txBytes with
          | error err => simp [h5] at h
          | ok res2 =>
            simp only [h5] at h
            cases h6 : waitForTx env res2.TxHash fuel { tx := 0, status := 0, selects := 0 } with
            | none => simp [h6] at h
            | some p =>
              obtain ⟨w, c⟩ := p
              rw [h6] at h
              cases w with
              | error err => simp at h
              | ok txResult =>
                simp only at h
                cases h7 : env.Block txResult.Height with
                | error err => simp [h7] at h
                | ok t =>
                  simp only [h7, Option.some.injEq, Except.ok.injEq, Prod.mk.injEq] at h
                  obtain ⟨hr, hb⟩ := h
                  subst hr
                  exact ⟨txResult, c, t, h6, h7, hb.symm⟩

/-- C14. The block time `signAndBroadcast` returns is the time of the block that
holds the transaction, truncated down to the millisecond: as a count of nanoseconds
it is a multiple of 1,000,000, it is not later than the time of the block, it is less
than one millisecond earlier, and truncating it again leaves it unchanged. -/
theorem signAndBroadcast_blockTime_truncated (env : ChainEnv) (fuel : Nat) (ctx : Context)
    (txBuilder : TxBuilder) (bankAccount : String) (info : KeyRecord) (res : TxResponse)
    (blockTime : Option Time)
    (h : signAndBroadcast env fuel ctx txBuilder bankAccount info = some (.ok (res, blockTime))) :
    ∃ txResult c t r,
      waitForTx env res.TxHash fuel { tx := 0, status := 0, selects := 0 }
        = some (.ok txResult, c) ∧
      env.Block txResult.Height = .ok t ∧
      blockTime = some r ∧
      r = (t.UTC).Truncate Millisecond ∧
      r.unixNano % 1000000 = 0 ∧
      (r.unixNano + unixToInternalNanos) % 1000000 = 0 ∧
      r.unixNano ≤ t.unixNano ∧
      t.unixNano - r.unixNano < 1000000 ∧
      (r.UTC).Truncate Millisecond = r := by
  obtain ⟨txResult, c, t, hw, hb, ht⟩ :=
    signAndBroadcast_ok_blockTime env fuel ctx txBuilder bankAccount info res blockTime h
  refine ⟨txResult, c, t, (t.UTC).Truncate Millisecond, hw, hb, ht, rfl, ?_, ?_, ?_, ?_, ?_⟩
  · rw [Truncate_Millisecond_unixNano]
    omega
  · rw [Truncate_Millisecond_unixNano]
    simp only [unixToInternalNanos]
    omega
  · rw [Truncate_Millisecond_unixNano]
    omega
  · rw [Truncate_Millisecond_unixNano]
    omega
  · have h2 := Truncate_Millisecond_unixNano ((t.UTC).Truncate Millisecond)
    have h1 := Truncate_Millisecond_unixNano t
    cases hr : (t.UTC).Truncate Millisecond with
    | mk n =>
      cases hr2 : (Time.UTC { unixNano := n }).Truncate Millisecond with
      | mk m =>
        rw [hr] at h1 h2
        rw [hr2] at h2
        simp only at h1 h2
        have : m = n := by omega
        rw [this]

/-- C14, at the sample ledger: the block time 2024-01-01T00:00:00.000123456Z is
returned as 2024-01-01T00:00:00.000Z. -/
theorem signAndBroadcast_blockTime_truncated_witness :
    ∃ txResult c t r,
      waitForTx sampleChain "ABCD" 1 { tx := 0, status := 0, selects := 0 }
        = some (.ok txResult, c) ∧
      sampleChain.Block txResult.Height = .ok t ∧
      some ({ unixNano := 1704067200000000000 } : Time) = some r ∧
      r = (t.UTC).Truncate Millisecond ∧
      r.unixNano % 1000000 = 0 ∧
      (r.unixNano + unixToInternalNanos) % 1000000 = 0 ∧
      r.unixNano ≤ t.unixNano ∧
      t.unixNano - r.unixNano < 1000000 ∧
      (r.UTC).Truncate Millisecond = r :=
  signAndBroadcast_blockTime_truncated sampleChain 1 { ChainID := "manifest-1" }
    sampleTxBuilder "bank" { Name := "bank" }
    { Code := 0, TxHash := "ABCD", RawLog := "" } (some { unixNano := 1704067200000000000 }) rfl

theorem CheckTxInfo_of_to_ne (IllegalAddr : String) (Parse : String → Except String UUID)
    (txInfo : TxInfo) (u : UUID) (a : String) (h : txInfo.Arguments.To ≠ IllegalAddr) :
    CheckTxInfo IllegalAddr Parse txInfo u a
      = some (some (CheckError.invalidTo txInfo.Arguments.To)) := by
  simp [CheckTxInfo, h]

theorem CheckTxInfo_of_length_ne (IllegalAddr : String) (Parse : String → Except String UUID)
    (txInfo : TxInfo) (u : UUID) (a : String) (h1 : txInfo.Arguments.To = IllegalAddr)
    (h2 : txInfo.Arguments.Memo.length ≠ 2) :
    CheckTxInfo IllegalAddr Parse txInfo u a
      = some (some (CheckError.invalidMemoLength txInfo.Arguments.Memo.length)) := by
  simp [CheckTxInfo, h1, h2]

theorem CheckTxInfo_of_pair (IllegalAddr : String) (Parse : String → Except String UUID)
    (txInfo : TxInfo) (u : UUID) (a : String) (m0 m1 : String)
    (h1 : txInfo.Arguments.To = IllegalAddr) (h2 : txInfo.Arguments.Memo = [m0, m1]) :
    CheckTxInfo IllegalAddr Parse txInfo u a
      = (match Parse m0 with
         | .error err => some (some (CheckError.invalidUUID err m0))
         | .ok x =>
           if m1 ≠ a then some (some (CheckError.invalidDestination m1))
           else if x ≠ u then some (some (CheckError.uuidMismatch x u))
           else some none) := by
  simp only [CheckTxInfo, h1, h2]
  simp

theorem length_two_iff (memo : List String) :
    memo.length = 2 ↔ ∃ m0 m1, memo = [m0, m1] := by
  constructor
  · intro h
    match memo, h with
    | [m0, m1], _ => exact ⟨m0, m1, rfl⟩
  · rintro ⟨m0, m1, rfl⟩
    rfl

/-- C13. `CheckTxInfo` returns no error exactly when the `To` address is
`IllegalAddr`, the memo has exactly two entries, the first parses as the UUID of the
work item and the second is the manifest address. It never evaluates `Memo[i]` on a
memo of another length: it ends without a panic, and on such a memo its result does
not depend on the entries. When several checks fail, the error is that of the first
failing one, in the order: `To` address, memo length, parse of the UUID, destination
address, match of the UUID. -/
theorem CheckTxInfo_accepts_iff (IllegalAddr : String) (Parse : String → Except String UUID)
    (txInfo : TxInfo) (u : UUID) (a : String) :
    (CheckTxInfo IllegalAddr Parse txInfo u a = some none ↔
      (txInfo.Arguments.To = IllegalAddr ∧
        ∃ m0 m1, txInfo.Arguments.Memo = [m0, m1] ∧ Parse m0 = .ok u ∧ m1 = a)) ∧
    CheckTxInfo IllegalAddr Parse txInfo u a ≠ none ∧
    (∀ txInfo2 : TxInfo, txInfo2.Arguments.To = txInfo.Arguments.To →
      txInfo2.Arguments.Memo.length = txInfo.Arguments.Memo.length →
      txInfo.Arguments.Memo.length ≠ 2 →
      CheckTxInfo IllegalAddr Parse txInfo2 u a = CheckTxInfo IllegalAddr Parse txInfo u a) ∧
    (txInfo.Arguments.To ≠ IllegalAddr →
      CheckTxInfo IllegalAddr Parse txInfo u a
        = some (some (CheckError.invalidTo txInfo.Arguments.To))) ∧
    (txInfo.Arguments.To = IllegalAddr → txInfo.Arguments.Memo.length ≠ 2 →
      CheckTxInfo IllegalAddr Parse txInfo u a
        = some (some (CheckError.invalidMemoLength txInfo.Arguments.Memo.length))) ∧
    (∀ m0 m1 err, txInfo.Arguments.To = IllegalAddr → txInfo.Arguments.Memo = [m0, m1] →
      Parse m0 = .error err →
      CheckTxInfo IllegalAddr Parse txInfo u a
        = some (some (CheckError.invalidUUID err m0))) ∧
    (∀ m0 m1 x, txInfo.Arguments.To = IllegalAddr → txInfo.Arguments.Memo = [m0, m1] →
      Parse m0 = .ok x → m1 ≠ a →
      CheckTxInfo IllegalAddr Parse txInfo u a
        = some (some (CheckError.invalidDestination m1))) ∧
    (∀ m0 m1 x, txInfo.Arguments.To = IllegalAddr → txInfo.Arguments.Memo = [m0, m1] →
      Parse m0 = .ok x → m1 = a → x ≠ u →
      CheckTxInfo IllegalAddr Parse txInfo u a
        = some (some (CheckError.uuidMismatch x u))) := by
  have hpair := CheckTxInfo_of_pair IllegalAddr Parse txInfo u a
  refine ⟨?_, ?_, ?_, CheckTxInfo_of_to_ne IllegalAddr Parse txInfo u a,
    CheckTxInfo_of_length_ne IllegalAddr Parse txInfo u a, ?_, ?_, ?_⟩
  · constructor
    · intro h
      by_cases h1 : txInfo.Arguments.To = IllegalAddr
      · by_cases h2 : txInfo.Arguments.Memo.length = 2
        · obtain ⟨m0, m1, hm⟩ := (length_two_iff _).mp h2
          rw [hpair m0 m1 h1 hm] at h
          refine ⟨h1, m0, m1, hm, ?_⟩
          cases hp : Parse m0 with
          | error err => simp [hp] at h
          | ok x =>
            simp only [hp] at h
            by_cases h3 : m1 = a
            · by_cases h4 : x = u
              · exact ⟨by rw [h4], h3⟩
              · simp [h3, h4] at h
            · simp [h3] at h
        · rw [CheckTxInfo_of_length_ne IllegalAddr Parse txInfo u a h1 h2] at h
          simp at h
      · rw [CheckTxInfo_of_to_ne IllegalAddr Parse txInfo u a h1] at h
        simp at h
    · rintro ⟨h1, m0, m1, hm, hp, h3⟩
      rw [hpair m0 m1 h1 hm]
      simp [hp, h3]
  · by_cases h1 : txInfo.Arguments.To = IllegalAddr
    · by_cases h2 : txInfo.Arguments.Memo.length = 2
      · obtain ⟨m0, m1, hm⟩ := (length_two_iff _).mp h2
        rw [hpair m0 m1 h1 hm]
        cases hp : Parse m0 with
        | error err => simp
        | ok x =>
          simp only
          split
          · simp
          · split <;> simp
      · rw [CheckTxInfo_of_length_ne IllegalAddr Parse txInfo u a h1 h2]
        simp
    · rw [CheckTxInfo_of_to_ne IllegalAddr Parse txInfo u a h1]
      simp
  · intro txInfo2 hto hlen hne
    by_cases h1 : txInfo.Arguments.To = IllegalAddr
    · rw [CheckTxInfo_of_length_ne IllegalAddr Parse txInfo u a h1 hne,
        CheckTxInfo_of_length_ne IllegalAddr Parse txInfo2 u a (by rw [hto]; exact h1)
          (by rw [hlen]; exact hne), hlen]
    · rw [CheckTxInfo_of_to_ne IllegalAddr Parse txInfo u a h1,
        CheckTxInfo_of_to_ne IllegalAddr Parse txInfo2 u a (by rw [hto]; exact h1), hto]
  · intro m0 m1 err h1 hm hp
    rw [hpair m0 m1 h1 hm]
    simp [hp]
  · intro m0 m1 x h1 hm hp h3
    rw [hpair m0 m1 h1 hm]
    simp [hp, h3]
  · intro m0 m1 x h1 hm hp h3 h4
    rw [hpair m0 m1 h1 hm]
    simp [hp, h3, h4]

/-- C13, at a transaction that passes every check, and at transactions that fail the
checks one after the other. -/
theorem CheckTxInfo_accepts_iff_witness :
    CheckTxInfo "maiyg" sampleParse sampleTxInfo sampleUUID "manifest1abc" = some none ∧
    CheckTxInfo "maiyg" sampleParse
        { Arguments := { sampleTxInfo.Arguments with To := "maa", Memo := [] } }
        sampleUUID "manifest1abc"
      = some (some (CheckError.invalidTo "maa")) ∧
    CheckTxInfo "maiyg" sampleParse
        { Arguments := { sampleTxInfo.Arguments with Memo := ["x"] } }
        sampleUUID "manifest1abc"
      = some (some (CheckError.invalidMemoLength 1)) ∧
    CheckTxInfo "maiyg" sampleParse
        { Arguments := { sampleTxInfo.Arguments with Memo := ["x", "y"] } }
        sampleUUID "manifest1abc"
      = some (some (CheckError.invalidUUID "invalid UUID format" "x")) ∧
    CheckTxInfo "maiyg" sampleParse
        { Arguments := { sampleTxInfo.Arguments with
            Memo := ["00000000-0000-0000-0000-000000000000", "y"] } }
        sampleUUID "manifest1abc"
      = some (some (CheckError.invalidDestination "y")) ∧
    CheckTxInfo "maiyg" sampleParse
        { Arguments := { sampleTxInfo.Arguments with
            Memo := ["00000000-0000-0000-0000-000000000000", "manifest1abc"] } }
        sampleUUID "manifest1abc"
      = some (some (CheckError.uuidMismatch
          ⟨[0, 0, 0, 0, 0, 0, 0, 0, 0, 0, 0, 0, 0, 0, 0, 0], rfl⟩ sampleUUID)) :=
  ⟨(CheckTxInfo_accepts_iff "maiyg" sampleParse sampleTxInfo sampleUUID "manifest1abc").1.mpr
      ⟨rfl, _, _, rfl, rfl, rfl⟩,
   (CheckTxInfo_accepts_iff "maiyg" sampleParse
      { Arguments := { sampleTxInfo.Arguments with To := "maa", Memo := [] } }
      sampleUUID "manifest1abc").2.2.2.1 (by decide),
   (CheckTxInfo_accepts_iff "maiyg" sampleParse
      { Arguments := { sampleTxInfo.Arguments with Memo := ["x"] } }
      sampleUUID "manifest1abc").2.2.2.2.1 rfl (by decide),
   (CheckTxInfo_accepts_iff "maiyg" sampleParse
      { Arguments := { sampleTxInfo.Arguments with Memo := ["x", "y"] } }
      sampleUUID "manifest1abc").2.2.2.2.2.1 "x" "y" "invalid UUID format" rfl rfl rfl,
   (CheckTxInfo_accepts_iff "maiyg" sampleParse
      { Arguments := { sampleTxInfo.Arguments with
          Memo := ["00000000-0000-0000-0000-000000000000", "y"] } }
      sampleUUID "manifest1abc").2.2.2.2.2.2.1 "00000000-0000-0000-0000-000000000000" "y"
        ⟨[0, 0, 0, 0, 0, 0, 0, 0, 0, 0, 0, 0, 0, 0, 0, 0], rfl⟩ rfl rfl rfl (by decide),
   (CheckTxInfo_accepts_iff "maiyg" sampleParse
      { Arguments := { sampleTxInfo.Arguments with
          Memo := ["00000000-0000-0000-0000-000000000000", "manifest1abc"] } }
      sampleUUID "manifest1abc").2.2.2.2.2.2.2 "00000000-0000-0000-0000-000000000000"
        "manifest1abc" ⟨[0, 0, 0, 0, 0, 0, 0, 0, 0, 0, 0, 0, 0, 0, 0, 0], rfl⟩
        rfl rfl rfl rfl (by decide)⟩

/-! ### The wait for the transaction -/

theorem waitForBlockHeight_tx (env : ChainEnv) (height : Int) :
    ∀ (fuel : Nat) (c : RpcCalls) (r : Option String) (c2 : RpcCalls),
      waitForBlockHeight env height fuel c = some (r, c2) → c2.tx = c.tx := by
  intro fuel
  induction fuel with
  | zero =>
    intro c r c2 h
    simp [waitForBlockHeight] at h
  | succ n ih =>
    intro c r c2 h
    simp only [waitForBlockHeight, getLatestBlockHeight] at h
    cases hsel : env.selectTicker c.selects with
    | true =>
      simp only [hsel, if_true] at h
      cases hs : env.Status c.status with
      | error err =>
        simp only [hs, Option.some.injEq, Prod.mk.injEq] at h
        rw [← h.2]
      | ok latestHeight =>
        simp only [hs] at h
        by_cases hh : latestHeight ≥ height
        · simp only [hh, if_true, Option.some.injEq, Prod.mk.injEq] at h
          rw [← h.2]
        · simp only [hh, if_false] at h
          have h2 := ih _ _ _ h
          simpa using h2
    | false =>
      simp only [hsel, Bool.false_eq_true, if_false, Option.some.injEq, Prod.mk.injEq] at h
      rw [← h.2]

theorem waitForNextBlock_tx (env : ChainEnv) (fuel : Nat) (c : RpcCalls) (r : Option String)
    (c2 : RpcCalls) (h : waitForNextBlock env fuel c = some (r, c2)) : c2.tx = c.tx := by
  simp only [waitForNextBlock, getLatestBlockHeight] at h
  cases hs : env.Status c.status with
  | error err =>
    simp only [hs, Option.some.injEq, Prod.mk.injEq] at h
    rw [← h.2]
  | ok latestHeight =>
    simp only [hs] at h
    have h2 := waitForBlockHeight_tx env _ fuel _ r c2 h
    simpa using h2

theorem waitForTxLoop_ok (env : ChainEnv) (bHash : List (Fin 256)) :
    ∀ (fuel : Nat) (c : RpcCalls) (r : ResultTx) (c2 : RpcCalls),
      waitForTxLoop env bHash fuel c = some (.ok r, c2) →
      c.tx < c2.tx ∧ env.Tx (c2.tx - 1) bHash = .ok r ∧
      ∀ i, c.tx ≤ i → i < c2.tx - 1 →
        ∃ err, env.Tx i bHash = .error err ∧ stringsContains err "not found" = true := by
  intro fuel
  induction fuel with
  | zero =>
    intro c r c2 h
    simp [waitForTxLoop] at h
  | succ n ih =>
    intro c r c2 h
    simp only [waitForTxLoop] at h
    cases htx : env.Tx c.tx bHash with
    | ok res =>
      simp only [htx, Option.some.injEq, Prod.mk.injEq, Except.ok.injEq] at h
      obtain ⟨h1, h2⟩ := h
      subst h1 h2
      refine ⟨by simp, by simpa using htx, ?_⟩
      intro i hi1 hi2
      simp at hi2
      omega
    | error err =>
      simp only [htx] at h
      by_cases hnf : stringsContains err "not found" = true
      · simp only [hnf, if_true] at h
        cases hw : waitForNextBlock env n { c with tx := c.tx + 1 } with
        | none => simp [hw] at h
        | some p =>
          obtain ⟨e, cw⟩ := p
          rw [hw] at h
          cases e with
          | some err2 => simp at h
          | none =>
            simp only at h
            have htxw := waitForNextBlock_tx env n _ _ _ hw
            simp only at htxw
            obtain ⟨h1, h2, h3⟩ := ih _ _ _ h
            refine ⟨by omega, h2, ?_⟩
            intro i hi1 hi2
            by_cases hic : i = c.tx
            · subst hic
              exact ⟨err, htx, hnf⟩
            · exact h3 i (by omega) hi2
      · simp [hnf] at h

theorem waitForTxLoop_error (env : ChainEnv) (bHash : List (Fin 256)) :
    ∀ (fuel : Nat) (c : RpcCalls) (e : String) (c2 : RpcCalls),
      waitForTxLoop env bHash fuel c = some (.error e, c2) →
      c.tx < c2.tx ∧
      (∀ i, c.tx ≤ i → i < c2.tx - 1 →
        ∃ err, env.Tx i bHash = .error err ∧ stringsContains err "not found" = true) ∧
      ∃ err, env.Tx (c2.tx - 1) bHash = .error err ∧
        ((stringsContains err "not found" = false ∧
            e = "error fetching transaction: " ++ err) ∨
          (stringsContains err "not found" = true ∧
            ∃ fuel2 cw, cw.tx = c2.tx ∧ waitForNextBlock env fuel2 cw = some (some e, c2))) := by
  intro fuel
  induction fuel with
  | zero =>
    intro c e c2 h
    simp [waitForTxLoop] at h
  | succ n ih =>
    intro c e c2 h
    simp only [waitForTxLoop] at h
    cases htx : env.Tx c.tx bHash with
    | ok res => simp [htx] at h
    | error err =>
      simp only [htx] at h
      by_cases hnf : stringsContains err "not found" = true
      · simp only [hnf, if_true] at h
        cases hw : waitForNextBlock env n { c with tx := c.tx + 1 } with
        | none => simp [hw] at h
        | some p =>
          obtain ⟨e2, cw⟩ := p
          have htxw := waitForNextBlock_tx env n _ _ _ hw
          simp only at htxw
          rw [hw] at h
          cases e2 with
          | some err2 =>
            simp only [Option.some.injEq, Prod.mk.injEq, Except.error.injEq] at h
            obtain ⟨h1, h2⟩ := h
            subst h1 h2
            refine ⟨by omega, ?_, err, ?_, Or.inr ⟨hnf, n, { c with tx := c.tx + 1 }, ?_, hw⟩⟩
            · intro i hi1 hi2
              omega
            · rw [htxw]
              simpa using htx
            · simp only
              omega
          | none =>
            simp only at h
            obtain ⟨h1, h2, h3⟩ := ih _ _ _ h
            refine ⟨by omega, ?_, h3⟩
            intro i hi1 hi2
            by_cases hic : i = c.tx
            · subst hic
              exact ⟨err, htx, hnf⟩
            · exact h2 i (by omega) hi2
      · simp only [hnf, if_false, Option.some.injEq, Prod.mk.injEq, Except.error.injEq] at h
        obtain ⟨rfl, rfl⟩ := h
        refine ⟨by simp, ?_, err, by simpa using htx, Or.inl ⟨by simpa using hnf, rfl⟩⟩
        intro i hi1 hi2
        simp at hi2
        omega

theorem waitForBlockHeight_polls (env : ChainEnv) (height : Int) :
    ∀ (n fuel : Nat) (c : RpcCalls), n < fuel →
      (∀ i, i ≤ n → env.selectTicker (c.selects + i) = true) →
      (∀ i, i < n → ∃ h, env.Status (c.status + i) = .ok h ∧ h < height) →
      (∃ h, env.Status (c.status + n) = .ok h ∧ height ≤ h) →
      waitForBlockHeight env height fuel c
        = some (none, { tx := c.tx, status := c.status + n + 1, selects := c.selects + n + 1 }) := by
  intro n
  induction n with
  | zero =>
    intro fuel c hf hsel _ hlast
    obtain ⟨m, rfl⟩ : ∃ m, fuel = m + 1 := ⟨fuel - 1, by omega⟩
    obtain ⟨h, hs, hh⟩ := hlast
    have hsel0 := hsel 0 (Nat.le_refl 0)
    simp only [Nat.add_zero] at hs hsel0
    simp [waitForBlockHeight, getLatestBlockHeight, hsel0, hs, hh]
  | succ k ih =>
    intro fuel c hf hsel hlow hlast
    obtain ⟨m, rfl⟩ : ∃ m, fuel = m + 1 := ⟨fuel - 1, by omega⟩
    obtain ⟨h0, hs0, hh0⟩ := hlow 0 (Nat.succ_pos k)
    have hsel0 := hsel 0 (Nat.zero_le _)
    simp only [Nat.add_zero] at hs0 hsel0
    have hnot : ¬ h0 ≥ height := by omega
    simp only [waitForBlockHeight, getLatestBlockHeight, hsel0, if_true, hs0, hnot, if_false]
    rw [ih m { tx := c.tx, status := c.status + 1, selects := c.selects + 1 } (by omega)
      (fun i hi => by
        have := hsel (i + 1) (by omega)
        simpa [Nat.add_assoc, Nat.add_comm 1 i] using this)
      (fun i hi => by
        have := hlow (i + 1) (by omega)
        simpa [Nat.add_assoc, Nat.add_comm 1 i] using this)
      (by
        obtain ⟨h, hs, hh⟩ := hlast
        exact ⟨h, by simpa [Nat.add_assoc, Nat.add_comm 1 k] using hs, hh⟩)]
    simp only [Option.some.injEq, Prod.mk.injEq, RpcCalls.mk.injEq, true_and]
    omega

theorem waitForBlockHeight_stalls (env : ChainEnv) (height : Int) :
    ∀ (fuel : Nat) (c : RpcCalls),
      (∀ i, env.selectTicker (c.selects + i) = true) →
      (∀ i, ∃ h, env.Status (c.status + i) = .ok h ∧ h < height) →
      waitForBlockHeight env height fuel c = none := by
  intro fuel
  induction fuel with
  | zero =>
    intro c _ _
    rfl
  | succ m ih =>
    intro c hsel hlow
    obtain ⟨h0, hs0, hh0⟩ := hlow 0
    have hsel0 := hsel 0
    simp only [Nat.add_zero] at hs0 hsel0
    have hnot : ¬ h0 ≥ height := by omega
    simp only [waitForBlockHeight, getLatestBlockHeight, hsel0, if_true, hs0, hnot, if_false]
    exact ih { tx := c.tx, status := c.status + 1, selects := c.selects + 1 }
      (fun i => by
        have := hsel (i + 1)
        simpa [Nat.add_assoc, Nat.add_comm 1 i] using this)
      (fun i => by
        have := hlow (i + 1)
        simpa [Nat.add_assoc, Nat.add_comm 1 i] using this)

theorem waitForBlockHeight_timer_case (env : ChainEnv) (height : Int) (fuel : Nat)
    (c : RpcCalls) (h : env.selectTicker c.selects = false) :
    waitForBlockHeight env height (fuel + 1) c
      = some (some "timeout exceeded waiting for block",
          { c with selects := c.selects + 1 }) := by
  simp [waitForBlockHeight, h]

theorem waitForTxLoop_succ (env : ChainEnv) (bHash : List (Fin 256)) (fuel : Nat)
    (c : RpcCalls) :
    waitForTxLoop env bHash (fuel + 1) c
      = (match env.Tx c.tx bHash with
         | .error err =>
           if stringsContains err "not found" then
             match waitForNextBlock env fuel { c with tx := c.tx + 1 } with
             | none => none
             | some (some err2, c2) => some (.error err2, c2)
             | some (none, c2) => waitForTxLoop env bHash fuel c2
           else
             some (.error ("error fetching transaction: " ++ err), { c with tx := c.tx + 1 })
         | .ok r => some (.ok r, { c with tx := c.tx + 1 })) := by
  rfl

/-! ### The clock of `waitForBlockHeight` -/

theorem clockAt_lastTick_le (took : Nat → Nat) : ∀ i, (clockAt took i).lastTick ≤ (clockAt took i).now := by
  intro i
  cases i with
  | zero => exact Nat.le_refl 0
  | succ n =>
    simp only [clockAt, Clock.afterPoll]
    exact Nat.le_add_right _ _

theorem Clock.nextTick_le (k : Clock) : k.nextTick ≤ k.lastTick + Second := by
  simp only [Clock.nextTick, Second]
  omega

theorem selectByClock_eq_true (took : Nat → Nat) (i : Nat) : selectByClock took i = true := by
  have h1 := clockAt_lastTick_le took i
  have h2 := Clock.nextTick_le (clockAt took i)
  simp only [selectByClock, Clock.selectTicker, Clock.timer, decide_eq_true_eq]
  simp only [Second] at h2 ⊢
  omega

/-- C12. `waitForBlockHeight` returns success at the first poll that observes a height
at or above the height asked for, which `waitForNextBlock` sets to the height it
observed plus one. Under the clock, every `select` takes the ticker case, because the
30 second timer is started anew each time the `select` is entered: when the height
never advances and the status calls keep succeeding, the loop has not returned after
any number of turns, where the claim asks for the error "timeout exceeded waiting for
block" after 30 seconds. -/
theorem waitForBlockHeight_never_times_out (env : ChainEnv) (took : Nat → Nat)
    (height : Int) (t s : Nat)
    (hsel : env.selectTicker = selectByClock took) :
    (∀ i, env.selectTicker i = true) ∧
    (∀ n,
      (∀ i, i < n → ∃ h, env.Status (s + i) = .ok h ∧ h < height) →
      (∃ h, env.Status (s + n) = .ok h ∧ height ≤ h) →
      ∀ fuel, n < fuel →
        waitForBlockHeight env height fuel { tx := t, status := s, selects := 0 }
          = some (none, { tx := t, status := s + n + 1, selects := n + 1 })) ∧
    ((∀ i, ∃ h, env.Status (s + i) = .ok h ∧ h < height) →
      ∀ fuel,
        waitForBlockHeight env height fuel { tx := t, status := s, selects := 0 } = none) ∧
    (∀ prev fuel, env.Status s = .ok prev →
      waitForNextBlock env fuel { tx := t, status := s, selects := 0 }
        = waitForBlockHeight env (prev + 1) fuel { tx := t, status := s + 1, selects := 0 }) := by
  have hall : ∀ i, env.selectTicker i = true := by
    intro i
    rw [hsel]
    exact selectByClock_eq_true took i
  refine ⟨hall, ?_, ?_, ?_⟩
  · intro n hlow hlast fuel hf
    have := waitForBlockHeight_polls env height n fuel { tx := t, status := s, selects := 0 }
      hf (fun i _ => hall _) hlow hlast
    simpa using this
  · intro hlow fuel
    exact waitForBlockHeight_stalls env height fuel { tx := t, status := s, selects := 0 }
      (fun i => hall _) hlow
  · intro prev fuel hs
    simp [waitForNextBlock, getLatestBlockHeight, hs]

/-- C12, at a node stopped at height 100 while height 101 is awaited: after 40 turns
of the loop, one per second, the wait has not returned; and at a chain that reaches
height 101 at the third poll. -/
theorem waitForBlockHeight_never_times_out_witness :
    (∀ i, stalledChain.selectTicker i = true) ∧
    waitForBlockHeight stalledChain 101 40 { tx := 1, status := 1, selects := 0 } = none ∧
    waitForNextBlock stalledChain 40 { tx := 1, status := 0, selects := 0 } = none ∧
    waitForBlockHeight { slowChain with selectTicker := selectByClock (fun _ => 0) } 103 5
        { tx := 1, status := 1, selects := 0 }
      = some (none, { tx := 1, status := 4, selects := 3 }) :=
  ⟨(waitForBlockHeight_never_times_out stalledChain (fun _ => 0) 101 1 1 rfl).1,
   (waitForBlockHeight_never_times_out stalledChain (fun _ => 0) 101 1 1 rfl).2.2.1
      (fun _ => ⟨100, rfl, by decide⟩) 40,
   ((waitForBlockHeight_never_times_out stalledChain (fun _ => 0) 101 1 0 rfl).2.2.2
      100 40 rfl).trans
    ((waitForBlockHeight_never_times_out stalledChain (fun _ => 0) 101 1 1 rfl).2.2.1
      (fun _ => ⟨100, rfl, by decide⟩) 40),
   (waitForBlockHeight_never_times_out
      { slowChain with selectTicker := selectByClock (fun _ => 0) } (fun _ => 0) 103 1 1
      rfl).2.1 2
      (fun i hi => ⟨100 + ((1 + i : Nat) : Int), rfl, by
        push_cast
        omega⟩)
      ⟨103, rfl, by decide⟩ 5 (by decide)⟩

/-! ### What a wait for the next block has observed when it returns -/

theorem waitForBlockHeight_observed (env : ChainEnv) (height : Int) :
    ∀ (fuel : Nat) (c c2 : RpcCalls),
      waitForBlockHeight env height fuel c = some (none, c2) →
      c.status < c2.status ∧
      c2.selects = c.selects + (c2.status - c.status) ∧
      (∃ h, env.Status (c2.status - 1) = .ok h ∧ height ≤ h) ∧
      (∀ j, c.status ≤ j → j < c2.status - 1 → ∃ h, env.Status j = .ok h ∧ h < height) ∧
      (∀ j, c.selects ≤ j → j < c2.selects → env.selectTicker j = true) := by
  intro fuel
  induction fuel with
  | zero =>
    intro c c2 h
    simp [waitForBlockHeight] at h
  | succ n ih =>
    intro c c2 h
    simp only [waitForBlockHeight, getLatestBlockHeight] at h
    cases hsel : env.selectTicker c.selects with
    | false =>
      simp [hsel] at h
    | true =>
      simp only [hsel, if_true] at h
      cases hs : env.Status c.status with
      | error err => simp [hs] at h
      | ok latestHeight =>
        simp only [hs] at h
        by_cases hh : latestHeight ≥ height
        · simp only [hh, if_true, Option.some.injEq, Prod.mk.injEq, true_and] at h
          subst h
          refine ⟨by simp, by simp, ⟨latestHeight, by simpa using hs, hh⟩, ?_, ?_⟩
          · intro j hj1 hj2
            simp at hj2
            omega
          · intro j hj1 hj2
            simp at hj2
            have : j = c.selects := by omega
            rw [this]
            exact hsel
        · simp only [hh, if_false] at h
          obtain ⟨h1, h2, h3, h4, h5⟩ := ih _ _ h
          simp only at h1 h2 h4 h5
          refine ⟨by omega, by omega, h3, ?_, ?_⟩
          · intro j hj1 hj2
            by_cases hjc : j = c.status
            · rw [hjc]
              exact ⟨latestHeight, hs, by omega⟩
            · exact h4 j (by omega) hj2
          · intro j hj1 hj2
            by_cases hjc : j = c.selects
            · rw [hjc]
              exact hsel
            · exact h5 j (by omega) hj2

theorem waitForNextBlock_observed (env : ChainEnv) (fuel : Nat) (c c2 : RpcCalls)
    (h : waitForNextBlock env fuel c = some (none, c2)) :
    ∃ prev, env.Status c.status = .ok prev ∧
      c.status + 2 ≤ c2.status ∧
      c2.selects + 1 = c.selects + (c2.status - c.status) ∧
      (∃ h, env.Status (c2.status - 1) = .ok h ∧ prev + 1 ≤ h) ∧
      (∀ j, c.status < j → j < c2.status - 1 → ∃ h, env.Status j = .ok h ∧ h ≤ prev) ∧
      (∀ j, c.selects ≤ j → j < c2.selects → env.selectTicker j = true) := by
  simp only [waitForNextBlock, getLatestBlockHeight] at h
  cases hs : env.Status c.status with
  | error err => simp [hs] at h
  | ok prev =>
    simp only [hs] at h
    obtain ⟨h1, h2, h3, h4, h5⟩ := waitForBlockHeight_observed env _ fuel _ _ h
    simp only at h1 h2 h4 h5
    refine ⟨prev, rfl, by omega, by omega, h3, ?_, h5⟩
    intro j hj1 hj2
    obtain ⟨hh, hs2, hlt⟩ := h4 j (by omega) hj2
    exact ⟨hh, hs2, by omega⟩

theorem waitForNextBlock_polls (env : ChainEnv) (n fuel : Nat) (c : RpcCalls) (prev : Int)
    (hprev : env.Status c.status = .ok prev)
    (hlow : ∀ j, j < n → ∃ h, env.Status (c.status + 1 + j) = .ok h ∧ h ≤ prev)
    (hlast : ∃ h, env.Status (c.status + 1 + n) = .ok h ∧ prev + 1 ≤ h)
    (hsel : ∀ j, j ≤ n → env.selectTicker (c.selects + j) = true)
    (hf : n < fuel) :
    waitForNextBlock env fuel c
      = some (none, { tx := c.tx, status := c.status + n + 2, selects := c.selects + n + 1 }) := by
  simp only [waitForNextBlock, getLatestBlockHeight, hprev]
  rw [waitForBlockHeight_polls env (prev + 1) n fuel
    { tx := c.tx, status := c.status + 1, selects := c.selects } hf hsel
    (fun j hj => by
      obtain ⟨h, hs, hle⟩ := hlow j hj
      exact ⟨h, hs, by omega⟩)
    hlast]
  have e1 : c.status + 1 + n + 1 = c.status + n + 2 := by omega
  simp only [e1]

theorem waitForTxLoop_found_after (env : ChainEnv) (bHash : List (Fin 256)) (r : ResultTx) :
    ∀ (k fuel : Nat) (c : RpcCalls), k < fuel →
      (∀ i, i < k → ∃ err, env.Tx (c.tx + i) bHash = .error err ∧
        stringsContains err "not found" = true) →
      env.Tx (c.tx + k) bHash = .ok r →
      (∀ i, i < k → env.selectTicker (c.selects + i) = true) →
      (∀ i, i < k → ∃ h h2, env.Status (c.status + 2 * i) = .ok h ∧
        env.Status (c.status + 2 * i + 1) = .ok h2 ∧ h + 1 ≤ h2) →
      waitForTxLoop env bHash fuel c
        = some (.ok r, { tx := c.tx + k + 1, status := c.status + 2 * k,
                         selects := c.selects + k }) := by
  intro k
  induction k with
  | zero =>
    intro fuel c hf _ hok _ _
    obtain ⟨m, rfl⟩ : ∃ m, fuel = m + 1 := ⟨fuel - 1, by omega⟩
    simp only [Nat.add_zero] at hok
    simp [waitForTxLoop, hok]
  | succ k ih =>
    intro fuel c hf hnf hok hsel hadv
    obtain ⟨m, rfl⟩ : ∃ m, fuel = m + 1 := ⟨fuel - 1, by omega⟩
    obtain ⟨m2, rfl⟩ : ∃ m2, m = m2 + 1 := ⟨m - 1, by omega⟩
    obtain ⟨err, he, hc⟩ := hnf 0 (Nat.succ_pos k)
    simp only [Nat.add_zero] at he
    obtain ⟨h, h2, hs, hs2, hle⟩ := hadv 0 (Nat.succ_pos k)
    simp only [Nat.mul_zero, Nat.add_zero] at hs hs2
    have hsel0 := hsel 0 (Nat.succ_pos k)
    simp only [Nat.add_zero] at hsel0
    rw [waitForTxLoop_succ]
    simp only [he, hc, if_true]
    rw [waitForNextBlock_polls env 0 (m2 + 1) { c with tx := c.tx + 1 } h hs
      (fun j hj => by omega) ⟨h2, by simpa using hs2, hle⟩
      (fun j hj => by
        have hj0 : j = 0 := by omega
        subst hj0
        simpa using hsel0)
      (by omega)]
    simp only
    rw [ih (m2 + 1) { tx := c.tx + 1, status := c.status + 0 + 2, selects := c.selects + 0 + 1 }
      (by omega)
      (fun i hi => by
        have := hnf (i + 1) (by omega)
        simpa [Nat.add_assoc, Nat.add_comm 1 i] using this)
      (by simpa [Nat.add_assoc, Nat.add_comm 1 k] using hok)
      (fun i hi => by
        have := hsel (i + 1) (by omega)
        simpa [Nat.add_assoc, Nat.add_comm 1 i] using this)
      (fun i hi => by
        obtain ⟨a, b, ha, hb, hab⟩ := hadv (i + 1) (by omega)
        refine ⟨a, b, ?_, ?_, hab⟩
        · have e : c.status + 0 + 2 + 2 * i = c.status + 2 * (i + 1) := by omega
          simp only [e]
          exact ha
        · have e : c.status + 0 + 2 + 2 * i + 1 = c.status + 2 * (i + 1) + 1 := by omega
          simp only [e]
          exact hb)]
    simp only [Option.some.injEq, Prod.mk.injEq, RpcCalls.mk.injEq, true_and]
    omega

/-! ### A transaction that is never found -/

theorem waitForBlockHeight_no_error (env : ChainEnv) (height : Int)
    (hsel : ∀ i, env.selectTicker i = true) (hst : ∀ i, ∃ h, env.Status i = .ok h) :
    ∀ (fuel : Nat) (c : RpcCalls) (e : String) (c2 : RpcCalls),
      waitForBlockHeight env height fuel c ≠ some (some e, c2) := by
  intro fuel
  induction fuel with
  | zero =>
    intro c e c2 h
    simp [waitForBlockHeight] at h
  | succ n ih =>
    intro c e c2 h
    obtain ⟨h0, hs⟩ := hst c.status
    simp only [waitForBlockHeight, getLatestBlockHeight, hsel c.selects, if_true, hs] at h
    by_cases hh : h0 ≥ height
    · simp [hh] at h
    · simp only [hh, if_false] at h
      exact ih _ _ _ h

theorem waitForNextBlock_no_error (env : ChainEnv)
    (hsel : ∀ i, env.selectTicker i = true) (hst : ∀ i, ∃ h, env.Status i = .ok h)
    (fuel : Nat) (c : RpcCalls) (e : String) (c2 : RpcCalls) :
    waitForNextBlock env fuel c ≠ some (some e, c2) := by
  intro h
  obtain ⟨h0, hs⟩ := hst c.status
  simp only [waitForNextBlock, getLatestBlockHeight, hs] at h
  exact waitForBlockHeight_no_error env _ hsel hst fuel _ e c2 h

theorem waitForTxLoop_never_found (env : ChainEnv) (bHash : List (Fin 256))
    (hsel : ∀ i, env.selectTicker i = true) (hst : ∀ i, ∃ h, env.Status i = .ok h)
    (hnf : ∀ i, ∃ err, env.Tx i bHash = .error err ∧ stringsContains err "not found" = true) :
    ∀ (fuel : Nat) (c : RpcCalls), waitForTxLoop env bHash fuel c = none := by
  intro fuel
  induction fuel with
  | zero =>
    intro c
    rfl
  | succ n ih =>
    intro c
    obtain ⟨err, he, hc⟩ := hnf c.tx
    rw [waitForTxLoop_succ]
    simp only [he, hc, if_true]
    cases hw : waitForNextBlock env n { c with tx := c.tx + 1 } with
    | none => rfl
    | some p =>
      obtain ⟨e, c2⟩ := p
      cases e with
      | some e2 => exact absurd hw (waitForNextBlock_no_error env hsel hst n _ e2 c2)
      | none => exact ih c2

theorem migrate_unconfirmed_never_returns (env : Env) (item remoteItem : WorkItem)
    (config : MigrateConfig) (res : TxResponse) (bHash : List (Fin 256)) (took : Nat → Nat)
    (hget : env.GetWorkItem item.UUID = .ok remoteItem)
    (hst : remoteItem.Status = CLAIMED ∨ remoteItem.Status = MIGRATING)
    (heq : item.Equal remoteItem = true)
    (hmig : item.Status ≠ MIGRATING →
      env.UpdateWorkItemAndSaveState [Effect.GetWorkItem item.UUID]
        { item with Status := MIGRATING } = none)
    (hb : BroadcastSucceeds env.chain item (chainConfigOf config) res)
    (hdec : env.chain.DecodeString res.TxHash = .ok bHash)
    (hclock : env.chain.selectTicker = selectByClock took)
    (hstatus : ∀ i, ∃ h, env.chain.Status i = .ok h)
    (hnf : ∀ i, ∃ err, env.chain.Tx i bHash = .error err ∧
      stringsContains err "not found" = true)
    (fuel : Nat) :
    migrate env fuel item config
      = { trace := tracePrefix item ++ [Effect.Migrate item (chainConfigOf config)],
          result := none } := by
  have hsel : ∀ i, env.chain.selectTicker i = true := by
    intro i
    rw [hclock]
    exact selectByClock_eq_true took i
  have hw : waitForTx env.chain res.TxHash fuel { tx := 0, status := 0, selects := 0 } = none := by
    simp only [waitForTx, hdec]
    exact waitForTxLoop_never_found env.chain bHash hsel hstatus hnf fuel _
  have hM : Migrate env.chain fuel item (chainConfigOf config) = none := by
    rw [Migrate_of_broadcast env.chain fuel item (chainConfigOf config) res hb, hw]
  rw [migrate_after_verification env fuel item remoteItem config hget hst heq hmig,
    sendTokens_of_none env fuel _ item config hM]

/-- C5, as stated, fails: the item is claimed and equal to its registry copy, the
`select`s follow the clock, the broadcast succeeds, the wait for the transaction ends
with an error whose text is "timeout exceeded waiting for block" (handed over by the
status call of the node), and `migrate` pushes a FAILED update carrying that text: the
last status written is FAILED, not MIGRATING. -/
theorem migrate_timeout_counterexample :
    relayedTimeoutEnv.GetWorkItem sampleItem.UUID = .ok sampleItem ∧
    sampleItem.Status = CLAIMED ∧
    sampleItem.Equal sampleItem = true ∧
    relayedTimeoutEnv.chain.selectTicker = selectByClock (fun _ => 0) ∧
    BroadcastSucceeds relayedTimeoutEnv.chain sampleItem (chainConfigOf sampleConfig)
      { Code := 0, TxHash := "ABCD", RawLog := "" } ∧
    waitForTx relayedTimeoutEnv.chain "ABCD" 2 { tx := 0, status := 0, selects := 0 }
      = some (.error timeoutText, { tx := 1, status := 2, selects := 1 }) ∧
    (migrate relayedTimeoutEnv 2 sampleItem sampleConfig).result
      = some (some (GoError.text timeoutText)) ∧
    pushedItems (migrate relayedTimeoutEnv 2 sampleItem sampleConfig).trace
      = [{ sampleItem with Status := MIGRATING },
         { sampleItem with Status := FAILED, Error := some timeoutText }] ∧
    lastPushedStatus (migrate relayedTimeoutEnv 2 sampleItem sampleConfig).trace
      = some FAILED ∧
    lastPushedStatus (migrate relayedTimeoutEnv 2 sampleItem sampleConfig).trace
      ≠ some MIGRATING := by
  refine ⟨rfl, rfl, by decide, rfl, ?_, rfl, by decide, by decide, by decide, by decide⟩
  exact ⟨_, _, _, _, _, _, _, _, _, rfl, rfl, rfl, rfl, rfl, rfl, rfl, rfl, rfl⟩

/-- C5, amended. For an eligible, matching work item, when the broadcast succeeds
and the wait for the transaction ends with an error `E`, whatever its text, "timeout
exceeded waiting for block" included, `migrate` pushes, as its last call, a FAILED
update whose error is the text of `E`, and no COMPLETED update; it returns `E` when
that update succeeds, and the error of the update when it fails. -/
theorem migrate_wait_error_pushes_failed (env : Env) (fuel : Nat)
    (item remoteItem : WorkItem) (config : MigrateConfig) (res : TxResponse) (c : RpcCalls)
    (E : String)
    (hget : env.GetWorkItem item.UUID = .ok remoteItem)
    (hst : remoteItem.Status = CLAIMED ∨ remoteItem.Status = MIGRATING)
    (heq : item.Equal remoteItem = true)
    (hmig : item.Status ≠ MIGRATING →
      env.UpdateWorkItemAndSaveState [Effect.GetWorkItem item.UUID]
        { item with Status := MIGRATING } = none)
    (hb : BroadcastSucceeds env.chain item (chainConfigOf config) res)
    (hwait : waitForTx env.chain res.TxHash fuel { tx := 0, status := 0, selects := 0 }
      = some (.error E, c)) (fuel2 : Nat) (hle : fuel ≤ fuel2) :
    migrate env fuel2 item config
      = { trace := tracePrefix item ++
            [Effect.Migrate item (chainConfigOf config),
             Effect.UpdateWorkItemAndSaveState
               { item with Status := FAILED, Error := some E }],
          result := some (some
            (match env.UpdateWorkItemAndSaveState
                (tracePrefix item ++ [Effect.Migrate item (chainConfigOf config)])
                { item with Status := FAILED, Error := some E } with
             | some fErr => fErr
             | none => GoError.text E)) } ∧
    lastPushedStatus (migrate env fuel2 item config).trace = some FAILED ∧
    (∀ w ∈ pushedItems (migrate env fuel2 item config).trace, w.Status ≠ COMPLETED) := by
  have hwait2 := waitForTx_mono env.chain res.TxHash fuel _ _ hwait fuel2 hle
  have hM : Migrate env.chain fuel2 item (chainConfigOf config) = some (.error E) := by
    rw [Migrate_of_broadcast env.chain fuel2 item (chainConfigOf config) res hb, hwait2]
  have hrun := migrate_after_verification env fuel2 item remoteItem config hget hst heq hmig
  rw [sendTokens_of_error env fuel2 _ item config E hM] at hrun
  simp only at hrun
  refine ⟨hrun, ?_, ?_⟩
  · rw [hrun]
    by_cases hm : item.Status = MIGRATING <;> simp [lastPushedStatus, tracePrefix, hm]
  · rw [hrun]
    intro w hw
    by_cases hm : item.Status = MIGRATING
    · simp [pushedItems, tracePrefix, hm] at hw
      rw [hw]
      exact (by decide : FAILED ≠ COMPLETED)
    · simp [pushedItems, tracePrefix, hm] at hw
      rcases hw with hw | hw
      · rw [hw]
        exact (by decide : MIGRATING ≠ COMPLETED)
      · rw [hw]
        exact (by decide : FAILED ≠ COMPLETED)

/-- C5, amended, at the claimed item whose transaction is not found and whose wait
for the next block ends with the error of a status call: "connection refused" on one
node, "timeout exceeded waiting for block" on the other. -/
theorem migrate_wait_error_pushes_failed_witness :
    (migrate failedStatusEnv 7 sampleItem sampleConfig
      = { trace := tracePrefix sampleItem ++
            [Effect.Migrate sampleItem (chainConfigOf sampleConfig),
             Effect.UpdateWorkItemAndSaveState
               { sampleItem with Status := FAILED, Error := some "connection refused" }],
          result := some (some
            (match failedStatusEnv.UpdateWorkItemAndSaveState
                (tracePrefix sampleItem ++
                  [Effect.Migrate sampleItem (chainConfigOf sampleConfig)])
                { sampleItem with Status := FAILED, Error := some "connection refused" } with
             | some fErr => fErr
             | none => GoError.text "connection refused")) } ∧
      lastPushedStatus (migrate failedStatusEnv 7 sampleItem sampleConfig).trace
        = some FAILED ∧
      (∀ w ∈ pushedItems (migrate failedStatusEnv 7 sampleItem sampleConfig).trace,
        w.Status ≠ COMPLETED)) ∧
    (migrate relayedTimeoutEnv 7 sampleItem sampleConfig
      = { trace := tracePrefix sampleItem ++
            [Effect.Migrate sampleItem (chainConfigOf sampleConfig),
             Effect.UpdateWorkItemAndSaveState
               { sampleItem with Status := FAILED, Error := some timeoutText }],
          result := some (some
            (match relayedTimeoutEnv.UpdateWorkItemAndSaveState
                (tracePrefix sampleItem ++
                  [Effect.Migrate sampleItem (chainConfigOf sampleConfig)])
                { sampleItem with Status := FAILED, Error := some timeoutText } with
             | some fErr => fErr
             | none => GoError.text timeoutText)) } ∧
      lastPushedStatus (migrate relayedTimeoutEnv 7 sampleItem sampleConfig).trace
        = some FAILED ∧
      (∀ w ∈ pushedItems (migrate relayedTimeoutEnv 7 sampleItem sampleConfig).trace,
        w.Status ≠ COMPLETED)) :=
  ⟨migrate_wait_error_pushes_failed failedStatusEnv 2 sampleItem sampleItem sampleConfig
      { Code := 0, TxHash := "ABCD", RawLog := "" } { tx := 1, status := 2, selects := 1 }
      "connection refused"
      rfl (Or.inl rfl) (by decide) (fun _ => rfl)
      ⟨_, _, _, _, _, _, _, _, _, rfl, rfl, rfl, rfl, rfl, rfl, rfl, rfl, rfl⟩ rfl 7 (by decide),
   migrate_wait_error_pushes_failed relayedTimeoutEnv 2 sampleItem sampleItem sampleConfig
      { Code := 0, TxHash := "ABCD", RawLog := "" } { tx := 1, status := 2, selects := 1 }
      timeoutText
      rfl (Or.inl rfl) (by decide) (fun _ => rfl)
      ⟨_, _, _, _, _, _, _, _, _, rfl, rfl, rfl, rfl, rfl, rfl, rfl, rfl, rfl⟩ rfl 7 (by decide)⟩

theorem migrate_unconfirmed_sample (fuel : Nat) :
    migrate unconfirmedEnv fuel sampleItem sampleConfig
      = { trace := tracePrefix sampleItem ++
            [Effect.Migrate sampleItem (chainConfigOf sampleConfig)],
          result := none } ∧
    pushedItems (migrate unconfirmedEnv fuel sampleItem sampleConfig).trace
      = [{ sampleItem with Status := MIGRATING }] := by
  have h := migrate_unconfirmed_never_returns unconfirmedEnv sampleItem sampleItem sampleConfig
    { Code := 0, TxHash := "ABCD", RawLog := "" } [171, 205] (fun _ => 0)
    rfl (Or.inl rfl) (by decide) (fun _ => rfl)
    ⟨_, _, _, _, _, _, _, _, _, rfl, rfl, rfl, rfl, rfl, rfl, rfl, rfl, rfl⟩ rfl rfl
    (fun _ => ⟨100, rfl⟩) (fun _ => ⟨"tx (ABCD) not found", rfl, by decide⟩) fuel
  refine ⟨h, ?_⟩
  rw [h]
  decide

/-- C11. In `waitForTx`, once the hash is decoded: a lookup error whose text does not
contain "not found" ends the wait with the error "error fetching transaction: ..." and
no further lookup; a lookup error whose text contains "not found" is followed by
`waitForNextBlock`, whose error, if any, is returned, and after which the next lookup
is made; a lookup that succeeds is returned. The wait between two lookups is a wait
for the next block: when it returns without error after the status call answered the
height `prev` (below the largest `int64`), its last poll has observed a height of at
least `prev + 1` and every poll before it a height of at most `prev`; and when the
chain stays at `prev` for `n` polls and then advances, the next lookup is made after
exactly `n + 1` polls. Hence a result returned is that of the first lookup that
succeeded, every lookup before it having answered "not found". -/
theorem waitForTx_lookup_outcomes (env : ChainEnv) (hash : String) (bHash : List (Fin 256))
    (fuel : Nat) (c : RpcCalls) (hdec : env.DecodeString hash = .ok bHash) :
    (∀ err, env.Tx c.tx bHash = .error err → stringsContains err "not found" = false →
      waitForTx env hash (fuel + 1) c
        = some (.error ("error fetching transaction: " ++ err), { c with tx := c.tx + 1 })) ∧
    (∀ err werr c2, env.Tx c.tx bHash = .error err →
      stringsContains err "not found" = true →
      waitForNextBlock env fuel { c with tx := c.tx + 1 } = some (some werr, c2) →
      waitForTx env hash (fuel + 1) c = some (.error werr, c2)) ∧
    (∀ err c2, env.Tx c.tx bHash = .error err →
      stringsContains err "not found" = true →
      waitForNextBlock env fuel { c with tx := c.tx + 1 } = some (none, c2) →
      c2.tx = c.tx + 1 ∧ waitForTx env hash (fuel + 1) c = waitForTx env hash fuel c2) ∧
    (∀ r, env.Tx c.tx bHash = .ok r →
      waitForTx env hash (fuel + 1) c = some (.ok r, { c with tx := c.tx + 1 })) ∧
    (∀ r c2, waitForTx env hash fuel c = some (.ok r, c2) →
      c.tx < c2.tx ∧ env.Tx (c2.tx - 1) bHash = .ok r ∧
      ∀ i, c.tx ≤ i → i < c2.tx - 1 →
        ∃ err, env.Tx i bHash = .error err ∧ stringsContains err "not found" = true) ∧
    (∀ e c2, waitForTx env hash fuel c = some (.error e, c2) →
      c.tx < c2.tx ∧
      (∀ i, c.tx ≤ i → i < c2.tx - 1 →
        ∃ err, env.Tx i bHash = .error err ∧ stringsContains err "not found" = true) ∧
      ∃ err, env.Tx (c2.tx - 1) bHash = .error err ∧
        ((stringsContains err "not found" = false ∧
            e = "error fetching transaction: " ++ err) ∨
          (stringsContains err "not found" = true ∧
            ∃ fuel2 cw, cw.tx = c2.tx ∧
              waitForNextBlock env fuel2 cw = some (some e, c2)))) ∧
    (∀ k r,
      (∀ i, i < k → ∃ err, env.Tx (c.tx + i) bHash = .error err ∧
        stringsContains err "not found" = true) →
      env.Tx (c.tx + k) bHash = .ok r →
      (∀ i, i < k → env.selectTicker (c.selects + i) = true) →
      (∀ i, i < k → ∃ h h2, env.Status (c.status + 2 * i) = .ok h ∧
        env.Status (c.status + 2 * i + 1) = .ok h2 ∧ h + 1 ≤ h2) →
      k < fuel →
      waitForTx env hash fuel c
        = some (.ok r, { tx := c.tx + k + 1, status := c.status + 2 * k,
                         selects := c.selects + k })) ∧
    (∀ err c2 prev, env.Tx c.tx bHash = .error err →
      stringsContains err "not found" = true →
      waitForNextBlock env fuel { c with tx := c.tx + 1 } = some (none, c2) →
      env.Status c.status = .ok prev → prev < maxInt64 →
      c.status + 2 ≤ c2.status ∧
      (∃ h, env.Status (c2.status - 1) = .ok h ∧ prev + 1 ≤ h) ∧
      (∀ j, c.status < j → j < c2.status - 1 →
        ∃ h, env.Status j = .ok h ∧ h ≤ prev)) ∧
    (∀ n err prev r, env.Tx c.tx bHash = .error err →
      stringsContains err "not found" = true →
      env.Status c.status = .ok prev → prev < maxInt64 →
      (∀ j, j < n → ∃ h, env.Status (c.status + 1 + j) = .ok h ∧ h ≤ prev) →
      (∃ h, env.Status (c.status + 1 + n) = .ok h ∧ prev + 1 ≤ h) →
      (∀ j, j ≤ n → env.selectTicker (c.selects + j) = true) →
      env.Tx (c.tx + 1) bHash = .ok r →
      n + 1 < fuel →
      waitForTx env hash fuel c
        = some (.ok r, { tx := c.tx + 2, status := c.status + n + 2,
                         selects := c.selects + n + 1 })) := by
  have hw : ∀ f, waitForTx env hash f c = waitForTxLoop env bHash f c := by
    intro f
    simp [waitForTx, hdec]
  have hw2 : ∀ f c2, waitForTx env hash f c2 = waitForTxLoop env bHash f c2 := by
    intro f c2
    simp [waitForTx, hdec]
  refine ⟨?_, ?_, ?_, ?_, ?_, ?_, ?_, ?_, ?_⟩
  · intro err he hc
    rw [hw, waitForTxLoop_succ]
    simp [he, hc]
  · intro err werr c2 he hc hwait
    rw [hw, waitForTxLoop_succ]
    simp [he, hc, hwait]
  · intro err c2 he hc hwait
    refine ⟨?_, ?_⟩
    · have := waitForNextBlock_tx env fuel _ _ _ hwait
      simpa using this
    · rw [hw, hw2, waitForTxLoop_succ]
      simp [he, hc, hwait]
  · intro r he
    rw [hw, waitForTxLoop_succ]
    simp [he]
  · intro r c2 h
    rw [hw] at h
    exact waitForTxLoop_ok env bHash fuel c r c2 h
  · intro e c2 h
    rw [hw] at h
    exact waitForTxLoop_error env bHash fuel c e c2 h
  · intro k r hnf hok hsel hadv hk
    rw [hw]
    exact waitForTxLoop_found_after env bHash r k fuel c hk hnf hok hsel hadv
  · intro err c2 prev _ _ hwait hprev _
    obtain ⟨prev2, hp, h1, _, h3, h4, _⟩ := waitForNextBlock_observed env fuel _ c2 hwait
    simp only at hp
    rw [hprev] at hp
    have hpp : prev = prev2 := by
      injection hp
    subst hpp
    exact ⟨h1, h3, h4⟩
  · intro n err prev r he hc hprev _ hlow hlast hsel hok hf
    obtain ⟨m, rfl⟩ : ∃ m, fuel = m + 1 := ⟨fuel - 1, by omega⟩
    obtain ⟨m2, rfl⟩ : ∃ m2, m = m2 + 1 := ⟨m - 1, by omega⟩
    rw [hw, waitForTxLoop_succ]
    simp only [he, hc, if_true]
    rw [waitForNextBlock_polls env n (m2 + 1) { c with tx := c.tx + 1 } prev hprev hlow hlast
      hsel (by omega)]
    simp only
    rw [waitForTxLoop_succ]
    simp only [hok]

/-- C11, at a node that refuses the lookup, at a transaction not found whose wait for
the next block ends with the error of a status call, at a transaction found at
once, at a transaction found at the third lookup on a chain that gains a block at
every status call, and at a transaction found at the second lookup on a chain that
stays at height 100 for two polls and reaches height 101 at the third. -/
theorem waitForTx_lookup_outcomes_witness :
    waitForTx refusedChain "ABCD" 1 { tx := 0, status := 0, selects := 0 }
      = some (.error "error fetching transaction: connection refused",
          { tx := 1, status := 0, selects := 0 }) ∧
    waitForTx failedStatusChain "ABCD" 2 { tx := 0, status := 0, selects := 0 }
      = some (.error "connection refused", { tx := 1, status := 2, selects := 1 }) ∧
    waitForTx sampleChain "ABCD" 1 { tx := 0, status := 0, selects := 0 }
      = some (.ok { Height := 100 }, { tx := 1, status := 0, selects := 0 }) ∧
    waitForTx slowChain "ABCD" 3 { tx := 0, status := 0, selects := 0 }
      = some (.ok { Height := 102 }, { tx := 3, status := 4, selects := 2 }) ∧
    ((∃ h, haltingChain.Status 3 = .ok h ∧ (100 : Int) + 1 ≤ h) ∧
      (∀ j, 0 < j → j < 3 → ∃ h, haltingChain.Status j = .ok h ∧ h ≤ (100 : Int))) ∧
    waitForTx haltingChain "ABCD" 4 { tx := 0, status := 0, selects := 0 }
      = some (.ok { Height := 101 }, { tx := 2, status := 4, selects := 3 }) :=
  ⟨(waitForTx_lookup_outcomes refusedChain "ABCD" [171, 205] 0
      { tx := 0, status := 0, selects := 0 } rfl).1 "connection refused" rfl (by decide),
   (waitForTx_lookup_outcomes failedStatusChain "ABCD" [171, 205] 1
      { tx := 0, status := 0, selects := 0 } rfl).2.1 "tx (ABCD) not found"
      "connection refused" { tx := 1, status := 2, selects := 1 } rfl (by decide) rfl,
   (waitForTx_lookup_outcomes sampleChain "ABCD" [171, 205] 0
      { tx := 0, status := 0, selects := 0 } rfl).2.2.2.1 { Height := 100 } rfl,
   (waitForTx_lookup_outcomes slowChain "ABCD" [171, 205] 3
      { tx := 0, status := 0, selects := 0 } rfl).2.2.2.2.2.2.1 2 { Height := 102 }
      (fun i hi => ⟨"tx (ABCD) not found", by simp [slowChain, hi], by decide⟩)
      rfl (fun _ _ => rfl)
      (fun i _ => ⟨100 + ((0 + 2 * i : Nat) : Int), 100 + ((0 + 2 * i + 1 : Nat) : Int),
        rfl, rfl, by
          push_cast
          omega⟩)
      (by decide),
   ((waitForTx_lookup_outcomes haltingChain "ABCD" [171, 205] 3
      { tx := 0, status := 0, selects := 0 } rfl).2.2.2.2.2.2.2.1 "tx (ABCD) not found"
      { tx := 1, status := 4, selects := 3 } 100 rfl (by decide) rfl rfl (by decide)).2,
   (waitForTx_lookup_outcomes haltingChain "ABCD" [171, 205] 4
      { tx := 0, status := 0, selects := 0 } rfl).2.2.2.2.2.2.2.2 2 "tx (ABCD) not found"
      100 { Height := 101 } rfl (by decide) rfl (by decide)
      (fun j hj => ⟨100, by
        show haltingChain.Status (0 + 1 + j) = .ok 100
        simp only [haltingChain]
        rw [if_pos (by omega)], by decide⟩)
      ⟨101, rfl, by decide⟩
      (fun j _ => selectByClock_eq_true _ _) rfl (by decide)⟩

end MfxMigrator
